import Mathlib

/-!
# Verification of gcp-network-tool (backend)

A shallow embedding of the pure computational core of the repository's
backend, together with theorems settling the specification claims.

Embedded source files:
* `backend/cidr_analyzer.py` — `parse_cidr`, `check_cidr_overlap`,
  `find_all_conflicts`, `find_available_cidrs`, `suggest_available_cidrs`.
* `backend/gcp_scanner.py` — `_collect_public_ips`, `_collect_internal_ips`,
  `_collect_firewall_rules`, `_collect_cloud_armor_policies`,
  `_scan_single_project`, `_get_project_info`, `_list_vpc_networks`,
  `_list_subnets`, `scan_network_topology`.
* `backend/scanners/instance_scanner.py`, `storage_scanner.py`,
  `address_scanner.py` — the per-kind scanners and their exception handling.

Modelling conventions:
* GCP API calls are fault points.  Each embedded function that makes API
  calls takes a "behavior" record whose fields are either plain data (the
  value a call would return) or `Except Unit α` (a call that may raise).
  `Except.error` at a field models the Python call raising; theorems
  quantify over all behaviors, covering every environmental failure.
* Python strings are Lean `String`; Python truthiness of a string is
  `s ≠ ""`, of a list is `l ≠ []`, of `None`-able objects is `Option.isSome`.
* Python `dict` used as an insertion-ordered map keyed by IP literal is
  `List (String × α)` with `setKey` (replace in place, else append) —
  exactly CPython dict assignment semantics.
* `LoadBalancerDetails` values are treated opaquely by the collection code
  (built by `_resolve_lb_details`, stored, never inspected), so the
  embedding is polymorphic in a type `D` of detail values and takes the
  resolver as a function parameter.
-/

namespace GcpNet

/-! ## Python string primitives used by the source -/

/-- Split a character list at every occurrence of `sep` (the semantics of
Python `s.split(sep)` for a one-character separator: the result is never
empty and empty pieces are kept). -/
def splitCh (sep : Char) : List Char → List (List Char)
  | [] => [[]]
  | c :: t =>
    let r := splitCh sep t
    if c = sep then [] :: r
    else
      match r with
      | h :: t2 => (c :: h) :: t2
      | [] => [[c]]

/-- Python `s.split(sep)` for a one-character separator. -/
def pySplit (sep : Char) (s : String) : List String :=
  (splitCh sep s.data).map String.mk

/-- Python `s.split("/")[-1]`: the last `/`-separated component. -/
def lastComp (s : String) : String :=
  (pySplit '/' s).getLastD ""

/-- Is `sub` a contiguous sublist starting at some position of `l`? -/
def infixAt (sub : List Char) : List Char → Bool
  | [] => sub.isEmpty
  | c :: t => List.isPrefixOf sub (c :: t) || infixAt sub t

/-- Python `sub in s` on strings: substring containment. -/
def pyIn (sub s : String) : Bool :=
  infixAt sub.data s.data

/-- Python whitespace characters removed by `str.strip()` (ASCII part). -/
def pyWs (c : Char) : Bool :=
  c = ' ' || c = '\t' || c = '\n' || c = '\r' || c = '\x0b' || c = '\x0c'

/-- Python `s.strip()`: drop leading and trailing whitespace. -/
def pyStrip (s : String) : String :=
  String.mk (((s.data.dropWhile pyWs).reverse.dropWhile pyWs).reverse)

/-- Python string truthiness: non-empty. -/
def truthyS (s : String) : Bool := s ≠ ""

/-- Python `s.startswith(pre)`. -/
def pyStartsWith (pre s : String) : Bool :=
  List.isPrefixOf pre.data s.data

/-- Python `c in s` for a single character. -/
def pyHasChar (c : Char) (s : String) : Bool :=
  s.data.contains c

/-- Python `sep.join(parts)` for a one-character separator. -/
def pyJoin (sep : Char) (parts : List String) : String :=
  String.mk (List.intercalate [sep] (parts.map String.data))

/-! ## `cidr_analyzer.py`: IPv4 network arithmetic

`ipaddress.IPv4Network` is embedded as a network address (`Nat`, machine
integer `< 2^32`) plus a prefix length.  `IPv4Network(_, strict=False)`
masks host bits, so `addr` is always a multiple of the block size. -/

/-- An `ipaddress.IPv4Network` value: network address and prefix length. -/
structure IPv4Net where
  addr : Nat
  prefixlen : Nat
  deriving DecidableEq, Repr

/-- Number of addresses in the block (`num_addresses`). -/
def blockSize (p : Nat) : Nat := 2 ^ (32 - p)

/-- Mask an address down to the start of its block. -/
def maskAddr (a p : Nat) : Nat := a / blockSize p * blockSize p

/-- Embedding of `network_address` as an integer. -/
def netStart (n : IPv4Net) : Nat := n.addr

/-- Embedding of `broadcast_address` as an integer. -/
def netEnd (n : IPv4Net) : Nat := n.addr + blockSize n.prefixlen - 1

/-- Well-formedness guaranteed by `parse_cidr`: in-range prefix, in-range
masked address. -/
def IPv4Net.valid (n : IPv4Net) : Prop :=
  n.prefixlen ≤ 32 ∧ n.addr < 2 ^ 32 ∧ n.addr = maskAddr n.addr n.prefixlen

/-- Python `net1.supernet_of(net2)`: range inclusion
(`net1.network_address <= net2.network_address and
  net1.broadcast_address >= net2.broadcast_address`). -/
def supernetOf (n1 n2 : IPv4Net) : Bool :=
  netStart n1 ≤ netStart n2 && netEnd n2 ≤ netEnd n1

/-- Python `net1.overlaps(net2)`: some endpoint of one range lies in the
other (CPython's exact disjunction). -/
def overlapsNet (n1 n2 : IPv4Net) : Bool :=
  (netStart n2 ≤ netStart n1 && netStart n1 ≤ netEnd n2) ||
  (netStart n2 ≤ netEnd n1 && netEnd n1 ≤ netEnd n2) ||
  (netStart n1 ≤ netStart n2 && netStart n2 ≤ netEnd n1) ||
  (netStart n1 ≤ netEnd n2 && netEnd n2 ≤ netEnd n1)

/-- Decimal digit list to value. -/
def digitsToNat (cs : List Char) : Nat :=
  cs.foldl (fun n c => n * 10 + (c.toNat - 48)) 0

/-- Parse one dotted-quad octet the way `ipaddress._parse_octet` does:
1–3 decimal digits, no leading zero, value ≤ 255. -/
def parseOctet (s : String) : Option Nat :=
  let cs := s.data
  if cs = [] then none
  else if ¬ cs.all Char.isDigit then none
  else if cs.length > 3 then none
  else if cs.length > 1 ∧ cs.headD '0' = '0' then none
  else
    let v := digitsToNat cs
    if v ≤ 255 then some v else none

/-- Parse `a.b.c.d` into its 32-bit integer value. -/
def parseIPv4 (s : String) : Option Nat :=
  match pySplit '.' s with
  | [a, b, c, d] =>
    match parseOctet a, parseOctet b, parseOctet c, parseOctet d with
    | some va, some vb, some vc, some vd =>
      some (((va * 256 + vb) * 256 + vc) * 256 + vd)
    | _, _, _, _ => none
  | _ => none

/-- Parse a decimal prefix length: digits only, value ≤ 32. -/
def parsePrefixLen (s : String) : Option Nat :=
  let cs := s.data
  if cs = [] then none
  else if ¬ cs.all Char.isDigit then none
  else
    let v := digitsToNat cs
    if v ≤ 32 then some v else none

/-- Embedding of `cidr_analyzer.parse_cidr`: `IPv4Network(cidr, strict=False)` wrapped so
that a `ValueError` becomes `None`.  Covers the `a.b.c.d/p` decimal-prefix
format (a bare address gets `/32`); `strict=False` masks host bits. -/
def parse_cidr (cidr : String) : Option IPv4Net :=
  match pySplit '/' cidr with
  | [a] =>
    match parseIPv4 a with
    | some ip => some ⟨maskAddr ip 32, 32⟩
    | none => none
  | [a, p] =>
    match parseIPv4 a, parsePrefixLen p with
    | some ip, some pl => some ⟨maskAddr ip pl, pl⟩
    | _, _ => none
  | _ => none

/-- Embedding of `cidr_analyzer.check_cidr_overlap` after both strings parsed. -/
def checkOverlapNets (net1 net2 : IPv4Net) : Option String :=
  if net1 = net2 then some "exact"
  else if supernetOf net1 net2 then some "contains"
  else if supernetOf net2 net1 then some "contained_by"
  else if overlapsNet net1 net2 then some "partial"
  else none

/-- Embedding of `cidr_analyzer.check_cidr_overlap`. -/
def check_cidr_overlap (cidr1 cidr2 : String) : Option String :=
  match parse_cidr cidr1, parse_cidr cidr2 with
  | some net1, some net2 => checkOverlapNets net1 net2
  | _, _ => none

/-! ## Data model (`models.py`, subset exercised by the claims)

Optional-string fields that the embedded code only ever tests for Python
truthiness are plain `String` with `""` for unset. -/

/-- One entry of `Subnet.secondary_ip_ranges` (a dict with keys
`range_name` and `ip_cidr_range`, always both present as built by
`_list_subnets`). -/
structure SecondaryRange where
  range_name : String
  ip_cidr_range : String
  deriving DecidableEq, Repr

/-- Embedding of `models.Subnet`. -/
structure SubnetM where
  name : String
  region : String
  ip_cidr_range : String
  gateway_ip : String
  private_ip_google_access : Bool
  secondary_ip_ranges : List SecondaryRange
  purpose : String
  self_link : String
  network : String
  deriving DecidableEq, Repr

/-- One entry of `VPCNetwork.peerings`. -/
structure PeeringM where
  name : String
  network : String
  state : String
  state_details : String
  deriving DecidableEq, Repr

/-- Embedding of `models.VPCNetwork`. -/
structure VPCM where
  name : String
  self_link : String
  project_id : String
  auto_create_subnetworks : Bool
  routing_mode : String
  mtu : Nat
  subnets : List SubnetM
  is_shared_vpc_host : Bool
  peerings : List PeeringM
  deriving DecidableEq, Repr

/-- Embedding of `models.Project` (fields the embedded code reads or writes; the
resource-list fields filled by other scanners are omitted). -/
structure ProjectM where
  project_id : String
  project_name : String
  project_number : String
  vpc_networks : List VPCM
  is_shared_vpc_host : Bool
  scan_status : String
  error_message : Option String
  deriving DecidableEq, Repr

/-- Embedding of `models.CIDRConflict`. -/
structure CIDRConflict where
  conflicting_cidr : String
  subnet_name : String
  vpc_name : String
  project_id : String
  region : String
  overlap_type : String
  deriving DecidableEq, Repr

/-! ## `cidr_analyzer.py`: conflict search and suggestions -/

/-- Python truthiness of an `Optional[str]` parameter. -/
def truthyOpt (o : Option String) : Bool :=
  match o with
  | none => false
  | some s => s ≠ ""

/-- The conflicts one subnet contributes in `find_all_conflicts`:
its primary range, then each secondary range. -/
def conflictsForSubnet (input_cidr pid vpc_name : String) (sub : SubnetM) :
    List CIDRConflict :=
  (match check_cidr_overlap input_cidr sub.ip_cidr_range with
   | some ot => [⟨sub.ip_cidr_range, sub.name, vpc_name, pid, sub.region, ot⟩]
   | none => []) ++
  sub.secondary_ip_ranges.flatMap (fun sec =>
    match check_cidr_overlap input_cidr sec.ip_cidr_range with
    | some ot =>
      [⟨sec.ip_cidr_range, sub.name ++ ":" ++ sec.range_name, vpc_name, pid,
        sub.region, ot⟩]
    | none => [])

/-- Embedding of `cidr_analyzer.find_all_conflicts` (it reads only `topology.projects`,
passed here directly).  A filter argument that is `None`/empty is inactive,
mirroring `if project_id and project.project_id != project_id: continue`. -/
def find_all_conflicts (input_cidr : String) (projects : List ProjectM)
    (vpc_self_link : Option String) (project_id : Option String) :
    List CIDRConflict :=
  projects.flatMap fun proj =>
    if truthyOpt project_id ∧ proj.project_id ≠ project_id.getD "" then []
    else
      proj.vpc_networks.flatMap fun vpc =>
        if truthyOpt vpc_self_link ∧ vpc.self_link ≠ vpc_self_link.getD "" then []
        else vpc.subnets.flatMap (conflictsForSubnet input_cidr proj.project_id vpc.name)

/-- A `compute_v1.Address` record. -/
structure AddrRec where
  address : String
  name : String
  address_type : String
  users : List String
  status : String
  description : String
  network : String
  subnetwork : String
  region : String
  deriving DecidableEq, Repr

/-- A `compute_v1.ForwardingRule` record. -/
structure FwdRec where
  i_p_address : String
  name : String
  load_balancing_scheme : String
  description : String
  labels : List (String × String)
  network : String
  subnetwork : String
  region : String
  deriving DecidableEq, Repr

/-- A `compute_v1.AccessConfig` on an instance network interface. -/
structure AccessConfigRec where
  nat_i_p : String
  deriving DecidableEq, Repr

/-- A `compute_v1.NetworkInterface` record. -/
structure IfaceRec where
  network_i_p : String
  network : String
  subnetwork : String
  access_configs : List AccessConfigRec
  deriving DecidableEq, Repr

/-- A `compute_v1.Instance` record (fields read by the collectors). -/
structure InstRec where
  name : String
  network_interfaces : List IfaceRec
  deriving DecidableEq, Repr

/-- Embedding of `models.PublicIP`, polymorphic in the opaque `LoadBalancerDetails`
payload `D`. -/
structure PublicIPM (D : Type) where
  ip_address : String
  resource_type : String
  resource_name : String
  project_id : String
  region : String
  status : String
  description : String
  labels : List (String × String)
  details : Option D
  zone : Option String
  deriving DecidableEq, Repr

/-- Embedding of `models.UsedInternalIP` (fields the internal collector sets; it never
sets `labels` or `details`, which stay at their pydantic defaults). -/
structure UsedInternalIPM where
  ip_address : String
  resource_type : String
  resource_name : String
  project_id : String
  vpc : String
  subnet : String
  region : String
  description : String
  deriving DecidableEq, Repr

/-! ## The insertion-ordered IP map (CPython `dict` keyed by IP literal) -/

/-- Insertion-ordered map: `d[k] = v`.  An existing key keeps its position
and gets the new value; a new key is appended. -/
def setKey {α : Type} (m : List (String × α)) (k : String) (v : α) :
    List (String × α) :=
  match m with
  | [] => [(k, v)]
  | (k0, v0) :: t => if k0 = k then (k, v) :: t else (k0, v0) :: setKey t k v

/-- Map lookup: `d.get(k)` / `k in d`. -/
def getKey {α : Type} (m : List (String × α)) (k : String) : Option α :=
  match m with
  | [] => none
  | (k0, v0) :: t => if k0 = k then some v0 else getKey t k

/-- Embedding of `list(d.values())`. -/
def mapValues {α : Type} (m : List (String × α)) : List α :=
  m.map Prod.snd

/-! ## `_collect_public_ips` (gcp_scanner.py lines 301–500) -/

/-- Embedding of `region` extraction for an aggregated-list scope key
(`zone_name.split("/")[-1]`, then the dead `startswith("regions/")`
re-split kept for fidelity). -/
def extractScopeRegion (zone_name : String) : String :=
  let region := lastComp zone_name
  if pyStartsWith "regions/" region then lastComp region else region

/-- Zone of an instance scope key, and its derived region
(`"-".join(zone.split("-")[:-1])` when the zone contains `-`). -/
def instZone (zone_name : String) : String := lastComp zone_name

/-- Region derived from a zone name. -/
def zoneRegion (zone : String) : String :=
  if pyHasChar '-' zone then
    pyJoin '-' ((pySplit '-' zone).dropLast)
  else zone

/-- Classification of a regional external static address
(`_collect_public_ips` step 1): resource type and resource name from the
first `users` link, else from `status`. -/
def mkRegionalAddrIP (D : Type) (pid region : String) (a : AddrRec) : PublicIPM D :=
  let rtn : String × String :=
    if a.users ≠ [] then
      let user_link := a.users.headD ""
      if pyIn "forwardingRules" user_link then ("LoadBalancer", lastComp user_link)
      else if pyIn "instances" user_link then ("VM", lastComp user_link)
      else if pyIn "routers" user_link then ("CloudNAT", lastComp user_link)
      else ("Static Address", a.name)
    else if a.status = "RESERVED" then ("Unused Address", a.name)
    else ("Static Address", a.name)
  { ip_address := a.address, resource_type := rtn.1, resource_name := rtn.2,
    project_id := pid, region := region, status := a.status,
    description := a.description, labels := [], details := none, zone := none }

/-- Classification of a global external static address
(`_collect_public_ips` step 1, global branch). -/
def mkGlobalAddrIP (D : Type) (pid : String) (a : AddrRec) : PublicIPM D :=
  let rtn : String × String :=
    if a.users ≠ [] then
      let user_link := a.users.headD ""
      if pyIn "forwardingRules" user_link then ("Global LoadBalancer", lastComp user_link)
      else ("Global Address", a.name)
    else if a.status = "RESERVED" then ("Unused Global Address", a.name)
    else ("Global Address", a.name)
  { ip_address := a.address, resource_type := rtn.1, resource_name := rtn.2,
    project_id := pid, region := "global", status := a.status,
    description := a.description, labels := [], details := none, zone := none }

/-- An external load-balancing scheme
(`rule.load_balancing_scheme in ["EXTERNAL", "EXTERNAL_MANAGED"]`). -/
def schemeExternal (r : FwdRec) : Bool :=
  r.load_balancing_scheme = "EXTERNAL" || r.load_balancing_scheme = "EXTERNAL_MANAGED"

/-- Merging a regional forwarding rule into an existing entry
(`_collect_public_ips` lines 406–421): fill `description` when unset,
overwrite `labels` when the rule has labels, resolve `details` when unset,
and upgrade `resource_type` only from `"Static Address"`. -/
def mergeFwdRegional {D : Type} (resolve : FwdRec → D) (e : PublicIPM D)
    (r : FwdRec) : PublicIPM D :=
  let e1 := if ¬ truthyS e.description ∧ truthyS r.description then
      { e with description := r.description } else e
  let e2 := if r.labels ≠ [] then { e1 with labels := r.labels } else e1
  let e3 := if e2.details.isNone ∧ schemeExternal r then
      { e2 with details := some (resolve r) } else e2
  if e3.resource_type = "Static Address" then
    { e3 with resource_type := "LoadBalancer" } else e3

/-- A fresh entry for a regional forwarding rule whose IP had no static
address (`_collect_public_ips` lines 423–433). -/
def newFwdRegionalIP {D : Type} (resolve : FwdRec → D) (pid region : String)
    (r : FwdRec) : PublicIPM D :=
  { ip_address := r.i_p_address, resource_type := "LoadBalancer",
    resource_name := r.name, project_id := pid, region := region,
    status := "IN_USE", description := r.description, labels := r.labels,
    details := if schemeExternal r then some (resolve r) else none,
    zone := none }

/-- Merging a global forwarding rule (`_collect_public_ips` lines 438–448):
as regional, but upgrading `"Global Address"` to `"Global LoadBalancer"`. -/
def mergeFwdGlobal {D : Type} (resolve : FwdRec → D) (e : PublicIPM D)
    (r : FwdRec) : PublicIPM D :=
  let e1 := if ¬ truthyS e.description ∧ truthyS r.description then
      { e with description := r.description } else e
  let e2 := if r.labels ≠ [] then { e1 with labels := r.labels } else e1
  let e3 := if e2.details.isNone ∧ schemeExternal r then
      { e2 with details := some (resolve r) } else e2
  if e3.resource_type = "Global Address" then
    { e3 with resource_type := "Global LoadBalancer" } else e3

/-- A fresh entry for a global forwarding rule (`lines 450–460`). -/
def newFwdGlobalIP {D : Type} (resolve : FwdRec → D) (pid : String)
    (r : FwdRec) : PublicIPM D :=
  { ip_address := r.i_p_address, resource_type := "Global LoadBalancer",
    resource_name := r.name, project_id := pid, region := "global",
    status := "IN_USE", description := r.description, labels := r.labels,
    details := if schemeExternal r then some (resolve r) else none,
    zone := none }

/-- A fresh entry for an instance NAT IP (`lines 479–488`). -/
def newVmIP (D : Type) (pid region zone inst_name ip : String) : PublicIPM D :=
  { ip_address := ip, resource_type := "VM", resource_name := inst_name,
    project_id := pid, region := region, status := "IN_USE",
    description := "", labels := [], details := none, zone := some zone }

/-- Merging an instance NAT IP into an existing entry (`lines 489–495`):
`"Static Address"` and `"VM"` entries are rewritten to this VM. -/
def mergeVM {D : Type} (e : PublicIPM D) (inst_name zone : String) : PublicIPM D :=
  if e.resource_type = "Static Address" ∨ e.resource_type = "VM" then
    { e with resource_type := "VM", resource_name := inst_name, zone := some zone }
  else e

/-- The per-project raw listings the collectors iterate over.  Aggregated
lists are `(scope key, records)` pairs. -/
structure ProjCollectInput where
  regionalAddrScopes : List (String × List AddrRec)
  globalAddrs : List AddrRec
  regionalFwdScopes : List (String × List FwdRec)
  globalFwds : List FwdRec
  instanceScopes : List (String × List InstRec)
  deriving Repr

/-- Step 1, regional addresses, one record. -/
def stepRegionalAddr {D : Type} (pid region : String)
    (m : List (String × PublicIPM D)) (a : AddrRec) : List (String × PublicIPM D) :=
  if a.address_type = "EXTERNAL" then
    setKey m a.address (mkRegionalAddrIP D pid region a)
  else m

/-- Step 1, global addresses, one record. -/
def stepGlobalAddr {D : Type} (pid : String)
    (m : List (String × PublicIPM D)) (a : AddrRec) : List (String × PublicIPM D) :=
  if a.address_type = "EXTERNAL" then
    setKey m a.address (mkGlobalAddrIP D pid a)
  else m

/-- Step 2, regional forwarding rules, one record. -/
def stepRegionalFwd {D : Type} (resolve : FwdRec → D) (pid region : String)
    (m : List (String × PublicIPM D)) (r : FwdRec) : List (String × PublicIPM D) :=
  if schemeExternal r ∧ truthyS r.i_p_address then
    match getKey m r.i_p_address with
    | some e => setKey m r.i_p_address (mergeFwdRegional resolve e r)
    | none => setKey m r.i_p_address (newFwdRegionalIP resolve pid region r)
  else m

/-- Step 2, global forwarding rules, one record. -/
def stepGlobalFwd {D : Type} (resolve : FwdRec → D) (pid : String)
    (m : List (String × PublicIPM D)) (r : FwdRec) : List (String × PublicIPM D) :=
  if schemeExternal r ∧ truthyS r.i_p_address then
    match getKey m r.i_p_address with
    | some e => setKey m r.i_p_address (mergeFwdGlobal resolve e r)
    | none => setKey m r.i_p_address (newFwdGlobalIP resolve pid r)
  else m

/-- Step 3, one access config of one instance interface. -/
def stepAccessConfig {D : Type} (pid region zone inst_name : String)
    (m : List (String × PublicIPM D)) (ac : AccessConfigRec) :
    List (String × PublicIPM D) :=
  if truthyS ac.nat_i_p then
    match getKey m ac.nat_i_p with
    | none => setKey m ac.nat_i_p (newVmIP D pid region zone inst_name ac.nat_i_p)
    | some e => setKey m ac.nat_i_p (mergeVM e inst_name zone)
  else m

/-- Step 3, one instance. -/
def stepInstance {D : Type} (pid region zone : String)
    (m : List (String × PublicIPM D)) (inst : InstRec) : List (String × PublicIPM D) :=
  inst.network_interfaces.foldl
    (fun m iface => iface.access_configs.foldl
      (stepAccessConfig pid region zone inst.name) m) m

/-- Embedding of `_collect_public_ips` over one successfully scanned project, updating
the shared map. -/
def collectPublicIpsProj {D : Type} (resolve : FwdRec → D)
    (m : List (String × PublicIPM D)) (pid : String) (inp : ProjCollectInput) :
    List (String × PublicIPM D) :=
  let m1 := inp.regionalAddrScopes.foldl
    (fun m sc => (sc.2).foldl (stepRegionalAddr pid (extractScopeRegion sc.1)) m) m
  let m2 := inp.globalAddrs.foldl (stepGlobalAddr pid) m1
  let m3 := inp.regionalFwdScopes.foldl
    (fun m sc => (sc.2).foldl (stepRegionalFwd resolve pid (extractScopeRegion sc.1)) m) m2
  let m4 := inp.globalFwds.foldl (stepGlobalFwd resolve pid) m3
  inp.instanceScopes.foldl
    (fun m sc =>
      let zone := instZone sc.1
      (sc.2).foldl (stepInstance pid (zoneRegion zone) zone) m) m4

/-- Embedding of `_collect_public_ips`: one shared map over all projects, skipping
projects whose scan did not succeed; finally `list(map.values())`. -/
def collectPublicIps {D : Type} (resolve : FwdRec → D)
    (projs : List (ProjectM × ProjCollectInput)) : List (PublicIPM D) :=
  mapValues (projs.foldl
    (fun m pinp =>
      if pinp.1.scan_status ≠ "success" then m
      else collectPublicIpsProj resolve m pinp.1.project_id pinp.2)
    [])

/-! ## `_collect_internal_ips` (gcp_scanner.py lines 502–632) -/

/-- Classification of a regional internal static address (lines 537–564). -/
def mkInternalAddrIP (pid region : String) (a : AddrRec) : UsedInternalIPM :=
  let rtn : String × String :=
    if a.users ≠ [] then
      let user_link := a.users.headD ""
      if pyIn "forwardingRules" user_link then ("ForwardingRule", lastComp user_link)
      else if pyIn "instances" user_link then ("VM", lastComp user_link)
      else ("Static Address", a.name)
    else ("Static Address", a.name)
  { ip_address := a.address, resource_type := rtn.1, resource_name := rtn.2,
    project_id := pid,
    vpc := if truthyS a.network then lastComp a.network else "",
    subnet := if truthyS a.subnetwork then lastComp a.subnetwork else "",
    region := region, description := "" }

/-- An internal load-balancing scheme (lines 578). -/
def schemeInternal (r : FwdRec) : Bool :=
  r.load_balancing_scheme = "INTERNAL" ||
  r.load_balancing_scheme = "INTERNAL_MANAGED" ||
  r.load_balancing_scheme = "INTERNAL_SELF_MANAGED"

/-- Step 1 (internal), one regional address record. -/
def stepInternalAddr (pid region : String)
    (m : List (String × UsedInternalIPM)) (a : AddrRec) :
    List (String × UsedInternalIPM) :=
  if a.address_type = "INTERNAL" then
    setKey m a.address (mkInternalAddrIP pid region a)
  else m

/-- Step 2 (internal), one forwarding rule: only added when the IP is not
already present (lines 577–592). -/
def stepInternalFwd (pid region : String)
    (m : List (String × UsedInternalIPM)) (r : FwdRec) :
    List (String × UsedInternalIPM) :=
  if schemeInternal r ∧ truthyS r.i_p_address then
    match getKey m r.i_p_address with
    | some _ => m
    | none =>
      setKey m r.i_p_address
        { ip_address := r.i_p_address, resource_type := "ForwardingRule",
          resource_name := r.name, project_id := pid,
          vpc := if truthyS r.network then lastComp r.network else "",
          subnet := if truthyS r.subnetwork then lastComp r.subnetwork else "",
          region := region, description := "" }
  else m

/-- Step 3 (internal), one instance interface (lines 605–627). -/
def stepInternalIface (pid region inst_name : String)
    (m : List (String × UsedInternalIPM)) (iface : IfaceRec) :
    List (String × UsedInternalIPM) :=
  if truthyS iface.network_i_p then
    match getKey m iface.network_i_p with
    | none =>
      setKey m iface.network_i_p
        { ip_address := iface.network_i_p, resource_type := "VM",
          resource_name := inst_name, project_id := pid,
          vpc := if truthyS iface.network then lastComp iface.network else "",
          subnet := if truthyS iface.subnetwork then lastComp iface.subnetwork else "",
          region := region, description := "" }
    | some e =>
      if e.resource_type = "Static Address" then
        setKey m iface.network_i_p
          { e with resource_type := "VM", resource_name := inst_name }
      else m
  else m

/-- Embedding of `_collect_internal_ips` over one successfully scanned project. -/
def collectInternalIpsProj (m : List (String × UsedInternalIPM)) (pid : String)
    (inp : ProjCollectInput) : List (String × UsedInternalIPM) :=
  let m1 := inp.regionalAddrScopes.foldl
    (fun m sc => (sc.2).foldl (stepInternalAddr pid (extractScopeRegion sc.1)) m) m
  let m2 := inp.regionalFwdScopes.foldl
    (fun m sc => (sc.2).foldl (stepInternalFwd pid (extractScopeRegion sc.1)) m) m1
  inp.instanceScopes.foldl
    (fun m sc =>
      let zone := instZone sc.1
      (sc.2).foldl
        (fun m inst => inst.network_interfaces.foldl
          (stepInternalIface pid (zoneRegion zone) inst.name) m) m) m2

/-- Embedding of `_collect_internal_ips`: shared map over all projects, skipping
projects whose scan did not succeed. -/
def collectInternalIps (projs : List (ProjectM × ProjCollectInput)) :
    List UsedInternalIPM :=
  mapValues (projs.foldl
    (fun m pinp =>
      if pinp.1.scan_status ≠ "success" then m
      else collectInternalIpsProj m pinp.1.project_id pinp.2)
    [])

/-! ## `scanners/instance_scanner.py` -/

/-- A `compute_v1.MachineType` record (fields read). -/
structure MachineTypeInfo where
  guest_cpus : Nat
  memory_mb : Nat
  deriving DecidableEq, Repr

/-- A `compute_v1.Instance` as read by `GCEInstanceScanner` (`machine_type`
is the full URL; `creation_timestamp` is the raw RFC-3339 string, carried
through unparsed in this embedding). -/
structure GInstRec where
  name : String
  machine_type : String
  status : String
  network_interfaces : List IfaceRec
  tags : List String
  labels : List (String × String)
  service_accounts : List String
  creation_timestamp : String
  deriving DecidableEq, Repr

/-- Embedding of `models.GCEInstance` (fields set by the scanner). -/
structure GCEInstanceM where
  name : String
  project_id : String
  zone : String
  machine_type : String
  status : String
  internal_ip : Option String
  external_ip : Option String
  network : String
  subnet : String
  tags : List String
  labels : List (String × String)
  service_accounts : List String
  creation_timestamp : Option String
  cpu_count : Option Nat
  memory_mb : Option Nat
  deriving DecidableEq, Repr

/-- API behavior for one `scan_instances` call.  The machine-type oracle is
a function of `(zone, machine type name)`; the per-scan machine-type cache
only avoids repeat calls and is result-transparent for a deterministic
oracle, so it needs no explicit state here. -/
structure InstScanBehavior where
  aggregated : Except Unit (List (String × List GInstRec))
  machineType : String → String → Except Unit MachineTypeInfo

/-- Building one `GCEInstance` (instance_scanner.py lines 36–82). -/
def buildGCEInstance (b : InstScanBehavior) (pid zone_name : String)
    (inst : GInstRec) : GCEInstanceM :=
  let primary := inst.network_interfaces.head?
  let mt_name := lastComp inst.machine_type
  let cpu_mem : Option Nat × Option Nat :=
    match b.machineType zone_name mt_name with
    | .ok mt => (some mt.guest_cpus, some mt.memory_mb)
    | .error _ => (none, none)
  { name := inst.name, project_id := pid, zone := zone_name,
    machine_type := mt_name, status := inst.status,
    internal_ip := primary.map (fun i => i.network_i_p),
    external_ip :=
      match primary with
      | some i =>
        if i.access_configs ≠ [] then some ((i.access_configs.headD ⟨""⟩).nat_i_p)
        else none
      | none => none,
    network := match primary with | some i => i.network | none => "",
    subnet := match primary with | some i => i.subnetwork | none => "",
    tags := inst.tags, labels := inst.labels,
    service_accounts := inst.service_accounts,
    creation_timestamp :=
      if truthyS inst.creation_timestamp then some inst.creation_timestamp else none,
    cpu_count := cpu_mem.1, memory_mb := cpu_mem.2 }

/-- Embedding of `GCEInstanceScanner.scan_instances` without its outer `try`. -/
def scan_instances_body (b : InstScanBehavior) (pid : String) :
    Except Unit (List GCEInstanceM) := do
  let scopes ← b.aggregated
  pure (scopes.flatMap fun sc =>
    (sc.2).map (buildGCEInstance b pid (lastComp sc.1)))

/-- Embedding of `GCEInstanceScanner.scan_instances`: the outer `except Exception`
converts any failure into `[]` (discarding instances accumulated so far). -/
def scan_instances (b : InstScanBehavior) (pid : String) : List GCEInstanceM :=
  match scan_instances_body b pid with
  | .ok l => l
  | .error _ => []

/-! ## `scanners/storage_scanner.py` -/

/-- A GCS bucket record (fields read); `iam_bindings` is reached through a
separate fallible call, see `StorageScanBehavior`. -/
structure BucketRec where
  name : String
  location : String
  storage_class : String
  time_created : String
  labels : List (String × String)
  versioning_enabled : Bool
  deriving DecidableEq, Repr

/-- Embedding of `models.GCSBucket`. -/
structure GCSBucketM where
  name : String
  project_id : String
  location : String
  storage_class : String
  creation_time : String
  labels : List (String × String)
  is_public : Bool
  versioning_enabled : Bool
  deriving DecidableEq, Repr

/-- API behavior for one `scan_buckets` call: the bucket listing, and the
per-bucket IAM policy call returning the member lists of each binding. -/
structure StorageScanBehavior where
  listBuckets : Except Unit (List BucketRec)
  iamPolicy : String → Except Unit (List (List String))

/-- Per-bucket public check (storage_scanner.py lines 25–33): IAM fetch
failure is absorbed and defaults the flag to `False`. -/
def bucketIsPublic (b : StorageScanBehavior) (bucket_name : String) : Bool :=
  match b.iamPolicy bucket_name with
  | .error _ => false
  | .ok bindings =>
    bindings.any (fun members =>
      members.contains "allUsers" || members.contains "allAuthenticatedUsers")

/-- Embedding of `StorageScanner.scan_buckets` without its outer `try`. -/
def scan_buckets_body (b : StorageScanBehavior) (pid : String) :
    Except Unit (List GCSBucketM) := do
  let buckets ← b.listBuckets
  pure (buckets.map fun bucket =>
    { name := bucket.name, project_id := pid, location := bucket.location,
      storage_class := bucket.storage_class, creation_time := bucket.time_created,
      labels := bucket.labels, is_public := bucketIsPublic b bucket.name,
      versioning_enabled := bucket.versioning_enabled })

/-- Embedding of `StorageScanner.scan_buckets`: outer `except Exception` → `[]`. -/
def scan_buckets (b : StorageScanBehavior) (pid : String) : List GCSBucketM :=
  match scan_buckets_body b pid with
  | .ok l => l
  | .error _ => []

/-! ## `scanners/address_scanner.py`

`scan_addresses` appends to a `results` list inside the outer `try` and
returns `results` after the `except`, so a mid-loop exception yields the
records accumulated so far.  The body is embedded as an `Except` whose
error case carries that partial list.  The listing sub-calls absorb their
own failures in inner `try` blocks, and the two `LBScanner` helpers the
loops call — `prefetch_resources` (lb_scanner.py lines 28–83) and
`resolve_lb_details` (lines 85–268) — wrap their whole bodies in
`try`/`except Exception` and always return normally, so they are **not**
fault points.  The one way the loops themselves raise in the source is the
`IndexError` from `u.split("/")[-2]` at line 107 when a `users` link has
fewer than two `/`-components. -/

/-- Python `u.split("/")[-2]`: `None` models the `IndexError` raised when
the link has fewer than two components. -/
def secondLastComp (u : String) : Option String :=
  let parts := pySplit '/' u
  if parts.length ≥ 2 then some (parts.getD (parts.length - 2) "") else none

/-- The unified record built by `scan_addresses` (`PublicIP` fields for
`address_type = "EXTERNAL"`, `UsedInternalIP` fields otherwise; unused
fields of the other flavor are `""`). -/
structure ScanAddrOut (D : Type) where
  kind : String
  ip_address : String
  resource_type : String
  resource_name : String
  project_id : String
  region : String
  status : String
  vpc : String
  subnet : String
  description : String
  details : Option D
  deriving DecidableEq, Repr

/-- API behavior for one `scan_addresses` call.  `hasLb` models passing an
`lb_scanner`; `resolveLb` is `lb_scanner.resolve_lb_details`, a **total**
function because its whole body sits in `try`/`except Exception` and it
always returns a details object.  `prefetch_resources` likewise always
returns; the context it builds only parametrizes `resolve_lb_details`, so
it is folded into `resolveLb` and needs no field of its own. -/
structure AddrScanBehavior (D : Type) where
  globalAddrs : Except Unit (List AddrRec)
  regionalAddrScopes : Except Unit (List (String × List AddrRec))
  regionalFwdScopes : Except Unit (List (String × List FwdRec))
  globalFwds : Except Unit (List FwdRec)
  hasLb : Bool
  resolveLb : FwdRec → D

/-- The `ip_to_fwd` dict comprehension
(`{fr.I_p_address: fr for fr in fwd_rules if fr.I_p_address}`): for
duplicate IPs the last rule wins. -/
def ipToFwdLookup (rules : List FwdRec) (ip : String) : Option FwdRec :=
  (rules.filter (fun fr => truthyS fr.i_p_address ∧ fr.i_p_address = ip)).getLast?

/-- Embedding of `resource_type` classification for a static address
(address_scanner.py lines 100–117); `none` models the `IndexError` from
`u.split("/")[-2]` on a malformed user link. -/
def addrScanResourceType (matched : Bool) (a : AddrRec) : Option String :=
  if matched then some "LoadBalancer"
  else if a.status = "IN_USE" then
    if a.users ≠ [] then
      match a.users.mapM secondLastComp with
      | none => none
      | some methods =>
        some (if methods.contains "instances" then "VM"
          else if methods.contains "forwardingRules" then "LoadBalancer (Indirect)"
          else methods.headD "Unknown")
    else some "In Use (Unknown)"
  else some "Unused"

/-- The record built for one static address (lines 119–149). -/
def mkScanAddrRec (D : Type) (pid address_type : String)
    (subnet_map : List (String × String)) (a : AddrRec) (fwd_rule : Option FwdRec)
    (resource_type : String) (lb_details : Option D) : ScanAddrOut D :=
  if address_type = "EXTERNAL" then
    { kind := "public", ip_address := a.address, resource_type := resource_type,
      resource_name := match fwd_rule with | some fr => fr.name | none => a.name,
      project_id := pid,
      region := if truthyS a.region then lastComp a.region else "global",
      status := if a.status = "IN_USE" then "IN_USE" else "RESERVED",
      vpc := "", subnet := "", description := a.description, details := lb_details }
  else
    let vpc_name0 := if truthyS a.network then lastComp a.network else "unknown"
    let subnet_name := if truthyS a.subnetwork then lastComp a.subnetwork else "unknown"
    let vpc_name :=
      if vpc_name0 = "unknown" ∧ subnet_map ≠ [] ∧ truthyS a.subnetwork then
        (getKey subnet_map a.subnetwork).getD "unknown"
      else vpc_name0
    { kind := "internal", ip_address := a.address, resource_type := resource_type,
      resource_name := match fwd_rule with | some fr => fr.name | none => a.name,
      project_id := pid,
      region := if truthyS a.region then lastComp a.region else "global",
      status := "", vpc := vpc_name, subnet := subnet_name,
      description := a.description, details := lb_details }

/-- The statically listed addresses: global then regional, each listing
absorbed into `[]` on failure by its own `try` block (lines 35–52). -/
def addrListingsOf {D : Type} (b : AddrScanBehavior D) : List AddrRec :=
  (match b.globalAddrs with | .ok l => l | .error _ => []) ++
    (match b.regionalAddrScopes with
      | .ok scs => scs.flatMap (fun sc => sc.2)
      | .error _ => [])

/-- The `target_addr` list: the listed addresses filtered by the requested
kind (lines 55–60). -/
def targetAddrsOf {D : Type} (b : AddrScanBehavior D) (address_type : String) :
    List AddrRec :=
  (addrListingsOf b).filter (fun a =>
    (address_type = "EXTERNAL" ∧ a.address_type = "EXTERNAL") ∨
    (address_type = "INTERNAL" ∧ a.address_type ≠ "EXTERNAL"))

/-- The `fwd_rules` list (lines 67–83): regional then global; a failure of
the aggregated regional listing also skips the global listing (the global
`try` is nested inside the regional one). -/
def fwdRulesOf {D : Type} (b : AddrScanBehavior D) : List FwdRec :=
  match b.regionalFwdScopes with
  | .error _ => []
  | .ok scs =>
    scs.flatMap (fun sc => sc.2) ++
      (match b.globalFwds with | .ok g => g | .error _ => [])

/-- Loop over `target_addr` (lines 88–149); the `IndexError` raised while
classifying an address whose `users` link has fewer than two
`/`-components (line 107) surfaces as `.error` carrying the results
accumulated so far.
`resolve_lb_details` always returns, so it contributes no fault. -/
def addrLoop {D : Type} (b : AddrScanBehavior D) (pid address_type : String)
    (subnet_map : List (String × String)) (fwd_rules : List FwdRec) :
    List AddrRec → List (ScanAddrOut D) →
    Except (List (ScanAddrOut D)) (List (ScanAddrOut D))
  | [], acc => .ok acc
  | a :: rest, acc =>
    let fwd_rule := ipToFwdLookup fwd_rules a.address
    let det : Option D :=
      match fwd_rule with
      | some fr => if b.hasLb then some (b.resolveLb fr) else none
      | none => none
    match addrScanResourceType fwd_rule.isSome a with
    | none => .error acc
    | some rt =>
      addrLoop b pid address_type subnet_map fwd_rules rest
        (acc ++ [mkScanAddrRec D pid address_type subnet_map a fwd_rule rt det])

/-- Loop over forwarding rules whose IP was not a static address
(lines 151–185); nothing in it can raise, so it is a plain fold. -/
def fwdLoop {D : Type} (b : AddrScanBehavior D) (pid address_type : String)
    (processed_ips : List String) :
    List FwdRec → List (ScanAddrOut D) → List (ScanAddrOut D)
  | [], acc => acc
  | fr :: rest, acc =>
    if truthyS fr.i_p_address ∧ fr.i_p_address ∉ processed_ips then
      let is_external := fr.load_balancing_scheme = "EXTERNAL" ∨
        fr.load_balancing_scheme = "EXTERNAL_MANAGED"
      if (address_type = "EXTERNAL" ∧ is_external) ∨
          (address_type = "INTERNAL" ∧ ¬ is_external) then
        let det : Option D := if b.hasLb then some (b.resolveLb fr) else none
        let rec_ : ScanAddrOut D :=
          if address_type = "EXTERNAL" then
            { kind := "public", ip_address := fr.i_p_address,
              resource_type := "LoadBalancer", resource_name := fr.name,
              project_id := pid,
              region := if truthyS fr.region then lastComp fr.region else "global",
              status := "IN_USE", vpc := "", subnet := "",
              description := fr.description, details := det }
          else
            { kind := "internal", ip_address := fr.i_p_address,
              resource_type := "LoadBalancer", resource_name := fr.name,
              project_id := pid,
              region := if truthyS fr.region then lastComp fr.region else "global",
              status := "",
              vpc := if truthyS fr.network then lastComp fr.network else "unknown",
              subnet := if truthyS fr.subnetwork then lastComp fr.subnetwork else "unknown",
              description := fr.description, details := det }
        fwdLoop b pid address_type processed_ips rest (acc ++ [rec_])
      else fwdLoop b pid address_type processed_ips rest acc
    else fwdLoop b pid address_type processed_ips rest acc

/-- Embedding of `AddressScanner.scan_addresses` body inside the outer
`try`: the listing calls absorb their own failures and the `LBScanner`
helpers always return, so the only fault point left unprotected is the
`IndexError` raised during classification inside the address loop. -/
def scan_addresses_body {D : Type} (b : AddrScanBehavior D)
    (pid address_type : String) (subnet_map : List (String × String)) :
    Except (List (ScanAddrOut D)) (List (ScanAddrOut D)) :=
  match addrLoop b pid address_type subnet_map (fwdRulesOf b)
      (targetAddrsOf b address_type) [] with
  | .error p => .error p
  | .ok acc1 =>
    .ok (fwdLoop b pid address_type
      ((targetAddrsOf b address_type).map (fun a => a.address))
      (fwdRulesOf b) acc1)

/-- Embedding of `AddressScanner.scan_addresses`: the outer `except Exception` logs and
falls through to `return results`, so a failure yields the partial list. -/
def scan_addresses {D : Type} (b : AddrScanBehavior D)
    (pid address_type : String) (subnet_map : List (String × String)) :
    List (ScanAddrOut D) :=
  match scan_addresses_body b pid address_type subnet_map with
  | .ok l => l
  | .error p => p

/-! ## `_scan_single_project` and its helpers (gcp_scanner.py lines 910–1104) -/

/-- Python `s.replace(pat, rep)` for a non-empty pattern, removing every
non-overlapping occurrence left to right.  Each step consumes at least one
character, so the input length is enough fuel. -/
def replaceAllAux (pat rep : List Char) : Nat → List Char → List Char
  | 0, l => l
  | _ + 1, [] => []
  | fuel + 1, c :: t =>
    if pat ≠ [] ∧ List.isPrefixOf pat (c :: t) then
      rep ++ replaceAllAux pat rep fuel ((c :: t).drop pat.length)
    else c :: replaceAllAux pat rep fuel t

/-- Python `s.replace(pat, rep)` (non-empty `pat`). -/
def pyReplace (pat rep s : String) : String :=
  String.mk (replaceAllAux pat.data rep.data s.data.length s.data)

/-- A `resourcemanager_v3.Project` record: `display_name` and the numeric
resource name `projects/<number>`. -/
structure ProjInfoRec where
  display_name : String
  name : String
  deriving DecidableEq, Repr

/-- A `compute_v1.Subnetwork` record (fields read by `_list_subnets`). -/
structure SubnetRec where
  name : String
  ip_cidr_range : String
  gateway_address : String
  private_ip_google_access : Bool
  purpose : String
  self_link : String
  network : String
  secondary_ip_ranges : List SecondaryRange
  deriving DecidableEq, Repr

/-- A `compute_v1.Network` record: `routing_config` is an optional
submessage carrying `routing_mode`; proto `mtu` defaults to `0`. -/
structure NetRec where
  name : String
  self_link : String
  auto_create_subnetworks : Bool
  routing_config : Option String
  mtu : Nat
  peerings : List PeeringM
  deriving DecidableEq, Repr

/-- API behavior for one `_scan_single_project` run.  `getXpnHost`'s three
distinct `except` arms (`NotFound`, `BadRequest`, the outer
`except Exception`) all leave `is_host = False`, so a single error case
suffices; `.ok b` carries the truthiness of the returned resource. -/
structure ProjApiBehavior where
  getProject : Except Unit ProjInfoRec
  getXpnHost : Except Unit Bool
  listNetworks : Except Unit (List NetRec)
  listSubnetsAgg : Except Unit (List (String × List SubnetRec))

/-- Embedding of `_get_project_info` (lines 958–971): any exception is absorbed into
`None`. -/
def get_project_info (b : ProjApiBehavior) : Option (String × String) :=
  match b.getProject with
  | .ok p => some (p.display_name, lastComp p.name)
  | .error _ => none

/-- Embedding of `_get_shared_vpc_info` (lines 973–1009): `is_host` is true exactly when
`get_xpn_host` succeeds with a truthy result; `host_project` is never
filled in. -/
def get_shared_vpc_info (b : ProjApiBehavior) : Bool :=
  match b.getXpnHost with
  | .ok t => t
  | .error _ => false

/-- Embedding of `_list_subnets` (lines 1065–1104): aggregated listing filtered to the
given network; listing failure is absorbed into `[]`. -/
def list_subnets (b : ProjApiBehavior) (network_self_link : String) :
    List SubnetM :=
  match b.listSubnetsAgg with
  | .error _ => []
  | .ok scopes =>
    scopes.flatMap fun sc =>
      ((sc.2).filter (fun sn => sn.network = network_self_link)).map fun sn =>
        { name := sn.name, region := pyReplace "regions/" "" sc.1,
          ip_cidr_range := sn.ip_cidr_range, gateway_ip := sn.gateway_address,
          private_ip_google_access := sn.private_ip_google_access,
          purpose := sn.purpose, self_link := sn.self_link,
          network := sn.network, secondary_ip_ranges := sn.secondary_ip_ranges }

/-- Embedding of `_list_vpc_networks` (lines 1011–1063).  The shared-VPC `try` block at
lines 1044–1052 only builds a request object and then sets
`is_shared_vpc_host = True` unconditionally, so the flag simply mirrors
`include_shared_vpc`. -/
def list_vpc_networks (b : ProjApiBehavior) (pid : String)
    (include_shared_vpc : Bool) : List VPCM :=
  match b.listNetworks with
  | .error _ => []
  | .ok nets =>
    nets.map fun network =>
      { name := network.name, self_link := network.self_link, project_id := pid,
        auto_create_subnetworks := network.auto_create_subnetworks,
        routing_mode :=
          match network.routing_config with
          | some rm => rm
          | none => "REGIONAL",
        mtu := if network.mtu = 0 then 1460 else network.mtu,
        peerings := network.peerings,
        is_shared_vpc_host := include_shared_vpc,
        subnets := list_subnets b network.self_link }

/-- Embedding of `_scan_single_project` (lines 910–956).  Every helper it calls absorbs
its own API failures, so with faults confined to API calls the `try` body
runs to completion: a failed metadata fetch leaves the display name at the
project id and the scan proceeds to list networks with final status
`"success"`.  (The `PermissionDenied` / `NotFound` / generic `except` arms
are unreachable under this fault model.) -/
def scan_single_project (b : ProjApiBehavior) (pid : String)
    (include_shared_vpc : Bool) : ProjectM :=
  let info := get_project_info b
  { project_id := pid,
    project_name := match info with | some i => i.1 | none => pid,
    project_number := match info with | some i => i.2 | none => "",
    is_shared_vpc_host :=
      if include_shared_vpc then get_shared_vpc_info b else false,
    vpc_networks := list_vpc_networks b pid include_shared_vpc,
    scan_status := "success",
    error_message := none }

/-! ## `_collect_firewall_rules` (lines 634–680) -/

/-- One `allowed`/`denied` entry of a `compute_v1.Firewall`. -/
structure FwAllowRec where
  i_p_protocol : String
  ports : List String
  deriving DecidableEq, Repr

/-- A `compute_v1.Firewall` record (fields read). -/
structure FirewallRec where
  name : String
  direction : String
  priority : Nat
  source_ranges : List String
  destination_ranges : List String
  source_tags : List String
  target_tags : List String
  allowed : List FwAllowRec
  denied : List FwAllowRec
  network : String
  disabled : Bool
  description : String
  deriving DecidableEq, Repr

/-- Embedding of `models.FirewallRule`. -/
structure FirewallRuleM where
  name : String
  direction : String
  action : String
  priority : Nat
  source_ranges : List String
  destination_ranges : List String
  source_tags : List String
  target_tags : List String
  allowed : List FwAllowRec
  denied : List FwAllowRec
  vpc_network : String
  project_id : String
  disabled : Bool
  description : Option String
  deriving DecidableEq, Repr

/-- Embedding of `_collect_firewall_rules`: flat list over successful projects.  Proto
falsy defaults (`""` direction, `0` priority) fall back to `"INGRESS"` and
`1000`. -/
def collectFirewallRules (fw : String → List FirewallRec)
    (projects : List ProjectM) : List FirewallRuleM :=
  projects.flatMap fun p =>
    if p.scan_status ≠ "success" then []
    else
      (fw p.project_id).map fun f =>
        { name := f.name,
          direction := if truthyS f.direction then f.direction else "INGRESS",
          action := if f.allowed ≠ [] then "ALLOW" else "DENY",
          priority := if f.priority = 0 then 1000 else f.priority,
          source_ranges := f.source_ranges,
          destination_ranges := f.destination_ranges,
          source_tags := f.source_tags, target_tags := f.target_tags,
          allowed := f.allowed, denied := f.denied,
          vpc_network := if truthyS f.network then lastComp f.network else "",
          project_id := p.project_id, disabled := f.disabled,
          description := if truthyS f.description then some f.description else none }

/-! ## `_collect_cloud_armor_policies` (lines 682–742) -/

/-- Embedding of `rule.match` of a security-policy rule: an optional CEL expression and
the basic-mode source-IP ranges (`[]` when the config is falsy/absent). -/
structure ArmorMatchRec where
  expr_expression : Option String
  config_src_ip_ranges : List String
  deriving DecidableEq, Repr

/-- A `compute_v1.SecurityPolicyRule` record. -/
structure ArmorRuleRec where
  priority : Nat
  action : String
  description : String
  match_info : Option ArmorMatchRec
  preview : Bool
  deriving DecidableEq, Repr

/-- A `compute_v1.SecurityPolicy` record; `adaptive` is
`layer_7_ddos_defense_config.enable` when `adaptive_protection_config` is
present/truthy. -/
structure ArmorPolicyRec where
  name : String
  description : String
  rules : List ArmorRuleRec
  adaptive : Option Bool
  self_link : String
  deriving DecidableEq, Repr

/-- Embedding of `models.CloudArmorRule`. -/
structure CloudArmorRuleM where
  priority : Nat
  action : String
  description : Option String
  match_expression : Option String
  preview : Bool
  deriving DecidableEq, Repr

/-- Embedding of `models.CloudArmorPolicy`. -/
structure CloudArmorPolicyM where
  name : String
  description : Option String
  rules : List CloudArmorRuleM
  adaptive_protection_enabled : Bool
  project_id : String
  self_link : String
  deriving DecidableEq, Repr

/-- Python `sep.join(parts)` for a multi-character separator. -/
def pyJoinS (sep : String) (parts : List String) : String :=
  String.mk (List.intercalate sep.data (parts.map String.data))

/-- The synthesized CEL expression for basic-mode rules (lines 712–715):
`" || ".join(f"inIpRange(origin.ip, '<ip>')" ...)`. -/
def synthIpRangeExpr (ranges : List String) : String :=
  pyJoinS " || "
    (ranges.map (fun ip => "inIpRange(origin.ip, \x27" ++ ip ++ "\x27)"))

/-- Embedding of `match_expr` extraction (lines 707–715). -/
def armorMatchExpr (m : Option ArmorMatchRec) : Option String :=
  match m with
  | none => none
  | some mi =>
    if (match mi.expr_expression with | some e => truthyS e | none => false) then
      mi.expr_expression
    else if mi.config_src_ip_ranges ≠ [] then
      some (synthIpRangeExpr mi.config_src_ip_ranges)
    else none

/-- Embedding of `_collect_cloud_armor_policies`: flat list over successful projects. -/
def collectCloudArmor (ap : String → List ArmorPolicyRec)
    (projects : List ProjectM) : List CloudArmorPolicyM :=
  projects.flatMap fun p =>
    if p.scan_status ≠ "success" then []
    else
      (ap p.project_id).map fun policy =>
        { name := policy.name,
          description :=
            if truthyS policy.description then some policy.description else none,
          rules := policy.rules.map fun rule =>
            { priority := if rule.priority = 0 then 2147483647 else rule.priority,
              action := if truthyS rule.action then rule.action else "allow",
              description :=
                if truthyS rule.description then some rule.description else none,
              match_expression := armorMatchExpr rule.match_info,
              preview := rule.preview },
          adaptive_protection_enabled :=
            match policy.adaptive with
            | some e => e
            | none => false,
          project_id := p.project_id,
          self_link := policy.self_link }

/-! ## `scan_network_topology` (gcp_scanner.py lines 119–199) -/

/-- Embedding of `models.NetworkTopology` (fields set by `scan_network_topology`; the
remaining resource lists keep their empty pydantic defaults). -/
structure TopologyM (D : Type) where
  scan_id : String
  source_type : String
  source_id : String
  projects : List ProjectM
  total_projects : Nat
  total_vpcs : Nat
  total_subnets : Nat
  failed_projects : Nat
  public_ips : List (PublicIPM D)
  used_internal_ips : List UsedInternalIPM
  firewall_rules : List FirewallRuleM
  cloud_armor_policies : List CloudArmorPolicyM
  deriving Repr

/-- The exception escaping `scan_network_topology`: its `except` arm logs
and then evaluates the undefined name `raisesources` (line 199), so the
caller sees a `NameError` raised while handling the original exception. -/
inductive PyErr where
  | nameError
  deriving DecidableEq, Repr

/-- The project-id parse for `source_type = "project"` (lines 150–151):
split on commas, strip whitespace, skip empties. -/
def parseProjectList (s : String) : List String :=
  ((pySplit ',' s).map pyStrip).filter (fun pid => pid ≠ "")

/-- Environment of one `scan_network_topology` call.  The three discovery
helpers (`_list_projects_in_folder`, `_list_projects_in_organization`,
`_list_all_accessible_projects`) absorb every API error internally and
return a plain list, so they appear as total functions; `projApi` and
`collect` give each project's API behavior; `resolve` is
`_resolve_lb_details`, which catches all of its own exceptions and always
returns a details object. -/
structure ScanBehavior (D : Type) where
  scanId : String
  folderProjects : String → List String
  orgProjects : String → List String
  allAccessible : List String
  projApi : String → ProjApiBehavior
  collect : String → ProjCollectInput
  resolve : FwdRec → D
  firewalls : String → List FirewallRec
  armorPolicies : String → List ArmorPolicyRec

/-- Embedding of `_scan_projects` (lines 877–908): fan-out of `_scan_single_project`.
Results are joined by completion order; list order is the only
order-dependent observable and is modelled as submission order.  The
per-future `except` arm is unreachable because `_scan_single_project`
catches everything itself. -/
def scan_projects {D : Type} (b : ScanBehavior D) (project_ids : List String)
    (include_shared_vpc : Bool) : List ProjectM :=
  project_ids.map (fun pid => scan_single_project (b.projApi pid) pid include_shared_vpc)

/-- Topology assembly from a resolved project-id list (lines 162–195). -/
def buildTopology {D : Type} (b : ScanBehavior D)
    (source_type source_id : String) (include_shared_vpc : Bool)
    (project_ids : List String) : TopologyM D :=
  let projects := scan_projects b project_ids include_shared_vpc
  let withInputs := projects.map (fun p => (p, b.collect p.project_id))
  { scan_id := b.scanId, source_type := source_type, source_id := source_id,
    projects := projects,
    total_projects := projects.length,
    total_vpcs := (projects.map (fun p => p.vpc_networks.length)).sum,
    total_subnets :=
      (projects.map (fun p => (p.vpc_networks.map (fun v => v.subnets.length)).sum)).sum,
    failed_projects := (projects.filter (fun p => p.scan_status ≠ "success")).length,
    public_ips := collectPublicIps b.resolve withInputs,
    used_internal_ips := collectInternalIps withInputs,
    firewall_rules := collectFirewallRules b.firewalls projects,
    cloud_armor_policies := collectCloudArmor b.armorPolicies projects }

/-- Embedding of `GCPScanner.scan_network_topology` (lines 119–199): dispatch on
`source_type`; the unrecognized case raises (`ValueError`, turned into a
`NameError` by the buggy `except` arm); every other path returns a
structured topology because all callees absorb their own failures. -/
def scan_network_topology {D : Type} (b : ScanBehavior D)
    (source_type source_id : String) (include_shared_vpc : Bool) :
    Except PyErr (TopologyM D) :=
  if source_type = "folder" then
    .ok (buildTopology b source_type source_id include_shared_vpc
      (b.folderProjects source_id))
  else if source_type = "organization" then
    .ok (buildTopology b source_type source_id include_shared_vpc
      (b.orgProjects source_id))
  else if source_type = "project" then
    .ok (buildTopology b source_type source_id include_shared_vpc
      (parseProjectList source_id))
  else if source_type = "all_accessible" then
    .ok (buildTopology b source_type source_id include_shared_vpc
      b.allAccessible)
  else .error .nameError

/-! ## Generic helpers and concrete test fixtures

The fixtures are concrete raw-record inputs used to evaluate the embedded
functions at specific points (counterexamples and witnesses). -/

/-- Did an `Except` computation succeed? -/
def isOkE {ε α : Type} : Except ε α → Bool
  | .ok _ => true
  | .error _ => false

/-- The four `source_type` values `scan_network_topology` dispatches on. -/
def sourceRecognized (st : String) : Bool :=
  st = "folder" || st = "organization" || st = "project" || st = "all_accessible"

/-- A reserved, unattached external static address (implied classification
`Unused Address`). -/
def cx1Addr : AddrRec :=
  { address := "34.1.2.3", name := "addr-1", address_type := "EXTERNAL",
    users := [], status := "RESERVED", description := "", network := "",
    subnetwork := "", region := "" }

/-- An external forwarding rule on the same IP literal as `cx1Addr`
(implied classification `LoadBalancer`). -/
def cx1Fwd : FwdRec :=
  { i_p_address := "34.1.2.3", name := "fr-1", load_balancing_scheme := "EXTERNAL",
    description := "", labels := [], network := "", subnetwork := "", region := "" }

/-- A successfully scanned project. -/
def cx1Proj : ProjectM :=
  { project_id := "p1", project_name := "p1", project_number := "",
    vpc_networks := [], is_shared_vpc_host := false, scan_status := "success",
    error_message := none }

/-- Raw listings: the reserved static address plus the forwarding rule that
targets its IP. -/
def cx1Input : ProjCollectInput :=
  { regionalAddrScopes := [("regions/us-east1", [cx1Addr])], globalAddrs := [],
    regionalFwdScopes := [("regions/us-east1", [cx1Fwd])], globalFwds := [],
    instanceScopes := [] }

/-- A regional external forwarding rule carrying labels. -/
def cx6FwdR : FwdRec :=
  { i_p_address := "34.9.9.9", name := "fr-a", load_balancing_scheme := "EXTERNAL",
    description := "d1", labels := [("team", "a")], network := "", subnetwork := "",
    region := "" }

/-- A global external forwarding rule on the same IP carrying different
labels. -/
def cx6FwdG : FwdRec :=
  { i_p_address := "34.9.9.9", name := "fr-b", load_balancing_scheme := "EXTERNAL",
    description := "d2", labels := [("team", "b")], network := "", subnetwork := "",
    region := "" }

/-- Raw listings where the same IP appears in a regional and then a global
forwarding rule. -/
def cx6Input : ProjCollectInput :=
  { regionalAddrScopes := [], globalAddrs := [],
    regionalFwdScopes := [("regions/us-east1", [cx6FwdR])], globalFwds := [cx6FwdG],
    instanceScopes := [] }

/-- A project-API behavior whose every call fails. -/
def trivProjApi : ProjApiBehavior :=
  { getProject := .error (), getXpnHost := .error (), listNetworks := .ok [],
    listSubnetsAgg := .ok [] }

/-- A concrete scan environment used to evaluate the full pipeline. -/
def cbTriv : ScanBehavior Unit :=
  { scanId := "scan-1", folderProjects := fun _ => [], orgProjects := fun _ => [],
    allAccessible := [], projApi := fun _ => trivProjApi,
    collect := fun _ => cx1Input, resolve := fun _ => (),
    firewalls := fun _ => [], armorPolicies := fun _ => [] }

/-- The topology produced by `cbTriv` for a two-project account list. -/
def t2wit : TopologyM Unit :=
  buildTopology cbTriv "project" "p1, p2" true (parseProjectList "p1, p2")

/-- A network record returned while the metadata fetch fails. -/
def cx3Net : NetRec :=
  { name := "net-1", self_link := "projects/p1/global/networks/net-1",
    auto_create_subnetworks := false, routing_config := none, mtu := 0,
    peerings := [] }

/-- A project-API behavior whose metadata fetch raises but whose network
listing succeeds with one network. -/
def cx3Api : ProjApiBehavior :=
  { getProject := .error (), getXpnHost := .error (),
    listNetworks := .ok [cx3Net], listSubnetsAgg := .ok [] }

/-- An in-use external address matched by no forwarding rule. -/
def cx4Addr1 : AddrRec :=
  { address := "1.1.1.1", name := "a-1", address_type := "EXTERNAL",
    users := [], status := "IN_USE", description := "", network := "",
    subnetwork := "", region := "" }

/-- An in-use external address whose only `users` link, `"badlink"`, has no
`/` — `u.split("/")[-2]` raises `IndexError` on it
(address_scanner.py line 107). -/
def cx4Addr2 : AddrRec :=
  { address := "2.2.2.2", name := "a-2", address_type := "EXTERNAL",
    users := ["badlink"], status := "IN_USE", description := "", network := "",
    subnetwork := "", region := "" }

/-- An address-scan behavior where the listings succeed, the first address
is well-formed and the second carries the malformed `users` link. -/
def cx4B : AddrScanBehavior Unit :=
  { globalAddrs := .ok [cx4Addr1, cx4Addr2], regionalAddrScopes := .ok [],
    regionalFwdScopes := .ok [], globalFwds := .ok [],
    hasLb := false, resolveLb := fun _ => () }

/-- An in-use external address with a well-formed instance `users` link. -/
def cx4Addr3 : AddrRec :=
  { address := "3.3.3.3", name := "a-3", address_type := "EXTERNAL",
    users := ["projects/p/zones/z/instances/vm-1"], status := "IN_USE",
    description := "", network := "", subnetwork := "", region := "" }

/-- An address-scan behavior whose every listed address classifies without
raising. -/
def cx4Good : AddrScanBehavior Unit :=
  { globalAddrs := .ok [cx4Addr1, cx4Addr3], regionalAddrScopes := .ok [],
    regionalFwdScopes := .ok [], globalFwds := .ok [],
    hasLb := false, resolveLb := fun _ => () }

/-- An instance-scan behavior whose aggregated listing raises. -/
def cx4InstB : InstScanBehavior :=
  { aggregated := .error (), machineType := fun _ _ => .error () }

/-- A storage-scan behavior whose bucket listing raises. -/
def cx4StoreB : StorageScanBehavior :=
  { listBuckets := .error (), iamPolicy := fun _ => .error () }

/-- An existing public-IP entry with description, labels and details all
set. -/
def cx6Entry : PublicIPM Unit :=
  { ip_address := "34.9.9.9", resource_type := "LoadBalancer",
    resource_name := "fr-a", project_id := "p1", region := "us-east1",
    status := "IN_USE", description := "d1", labels := [("team", "a")],
    details := some (), zone := none }

/-- A subnet with a parseable primary range and a malformed secondary
range. -/
def cx10Sub : SubnetM :=
  { name := "sub-1", region := "us-east1", ip_cidr_range := "10.0.1.0/24",
    gateway_ip := "10.0.1.1", private_ip_google_access := false,
    secondary_ip_ranges := [{ range_name := "pods", ip_cidr_range := "not-a-cidr" }],
    purpose := "PRIVATE", self_link := "sl-sub-1", network := "sl-vpc-1" }

/-- A VPC holding `cx10Sub`. -/
def cx10Vpc : VPCM :=
  { name := "vpc-1", self_link := "sl-vpc-1", project_id := "p1",
    auto_create_subnetworks := false, routing_mode := "REGIONAL", mtu := 1460,
    subnets := [cx10Sub], is_shared_vpc_host := false, peerings := [] }

/-- A scanned project holding `cx10Vpc`. -/
def cx10Proj : ProjectM :=
  { project_id := "p1", project_name := "p1", project_number := "",
    vpc_networks := [cx10Vpc], is_shared_vpc_host := false,
    scan_status := "success", error_message := none }

/-! ## Invariants of the insertion-ordered IP map -/

section MapLemmas

variable {α : Type} {ipOf : α → String}

/-- The collectors' map invariant: keys are distinct and every stored
record carries its key as its IP literal. -/
def MapInv (ipOf : α → String) (m : List (String × α)) : Prop :=
  (m.map Prod.fst).Nodup ∧ ∀ p ∈ m, ipOf p.2 = p.1

theorem mapInv_nil : MapInv ipOf [] := by
  constructor
  · simp
  · intro p hp; simp at hp

theorem getKey_mem {m : List (String × α)} {k : String} {v : α}
    (h : getKey m k = some v) : (k, v) ∈ m := by
  induction m with
  | nil => simp [getKey] at h
  | cons p t ih =>
    obtain ⟨k0, v0⟩ := p
    by_cases hk : k0 = k
    · subst hk
      simp [getKey] at h
      subst h
      exact List.mem_cons_self _ _
    · simp [getKey, hk] at h
      exact List.mem_cons_of_mem _ (ih h)

theorem setKey_cons_eq {k0 k : String} {v0 v : α} {t : List (String × α)}
    (h : k0 = k) : setKey ((k0, v0) :: t) k v = (k, v) :: t := by
  simp [setKey, h]

theorem setKey_cons_ne {k0 k : String} {v0 v : α} {t : List (String × α)}
    (h : ¬ k0 = k) : setKey ((k0, v0) :: t) k v = (k0, v0) :: setKey t k v := by
  simp [setKey, h]

theorem mem_setKey {m : List (String × α)} {k : String} {v : α} {p : String × α}
    (h : p ∈ setKey m k v) : p = (k, v) ∨ p ∈ m := by
  induction m with
  | nil => simp [setKey] at h; simp [h]
  | cons q t ih =>
    obtain ⟨k0, v0⟩ := q
    by_cases hk : k0 = k
    · rw [setKey_cons_eq hk] at h
      rcases List.mem_cons.1 h with h | h
      · exact Or.inl h
      · exact Or.inr (List.mem_cons_of_mem _ h)
    · rw [setKey_cons_ne hk] at h
      rcases List.mem_cons.1 h with h | h
      · exact Or.inr (by simp [h])
      · rcases ih h with h1 | h1
        · exact Or.inl h1
        · exact Or.inr (List.mem_cons_of_mem _ h1)

theorem mem_map_fst_setKey {m : List (String × α)} {k x : String} {v : α}
    (h : x ∈ (setKey m k v).map Prod.fst) : x = k ∨ x ∈ m.map Prod.fst := by
  rcases List.mem_map.1 h with ⟨p, hp, hx⟩
  rcases mem_setKey hp with h1 | h1
  · subst h1; exact Or.inl hx.symm
  · exact Or.inr (hx ▸ List.mem_map_of_mem Prod.fst h1)

theorem mapInv_setKey {m : List (String × α)} {k : String} {v : α}
    (h : MapInv ipOf m) (hv : ipOf v = k) : MapInv ipOf (setKey m k v) := by
  induction m with
  | nil =>
    refine ⟨by simp [setKey], ?_⟩
    intro p hp
    simp [setKey] at hp
    simp [hp, hv]
  | cons q t ih =>
    obtain ⟨k0, v0⟩ := q
    obtain ⟨hnd, hval⟩ := h
    simp only [List.map_cons, List.nodup_cons] at hnd
    obtain ⟨hk0, hndt⟩ := hnd
    have hvalt : ∀ p ∈ t, ipOf p.2 = p.1 := fun p hp =>
      hval p (List.mem_cons_of_mem _ hp)
    by_cases hk : k0 = k
    · subst hk
      rw [setKey_cons_eq rfl]
      refine ⟨?_, ?_⟩
      · rw [List.map_cons]
        exact List.nodup_cons.2 ⟨hk0, hndt⟩
      · intro p hp
        rcases List.mem_cons.1 hp with hp | hp
        · simp [hp, hv]
        · exact hval p (List.mem_cons_of_mem _ hp)
    · obtain ⟨ih1, ih2⟩ := ih ⟨hndt, hvalt⟩
      rw [setKey_cons_ne hk]
      refine ⟨?_, ?_⟩
      · simp only [List.map_cons, List.nodup_cons]
        refine ⟨fun hc => ?_, ih1⟩
        rcases mem_map_fst_setKey hc with h1 | h1
        · exact hk h1
        · exact hk0 h1
      · intro p hp
        rcases List.mem_cons.1 hp with hp | hp
        · subst hp
          exact hval (k0, v0) (List.mem_cons_self _ _)
        · exact ih2 p hp

theorem mapInv_getKey {m : List (String × α)} {k : String} {v : α}
    (h : MapInv ipOf m) (hg : getKey m k = some v) : ipOf v = k :=
  h.2 (k, v) (getKey_mem hg)

theorem mapInv_values_pairwise {m : List (String × α)} (h : MapInv ipOf m) :
    (mapValues m).Pairwise (fun x y => ipOf x ≠ ipOf y) := by
  obtain ⟨hnd, hval⟩ := h
  have hp : m.Pairwise (fun p q => p.1 ≠ q.1) := (List.pairwise_map).1 hnd
  have hp2 : m.Pairwise (fun p q => ipOf p.2 ≠ ipOf q.2) := by
    refine hp.imp_of_mem ?_
    intro a b ha hb hne
    rw [hval a ha, hval b hb]
    exact hne
  exact (List.pairwise_map).2 hp2

theorem foldl_mapInv {β : Type} {f : List (String × α) → β → List (String × α)}
    (hf : ∀ m b, MapInv ipOf m → MapInv ipOf (f m b)) :
    ∀ (l : List β) (m : List (String × α)), MapInv ipOf m → MapInv ipOf (l.foldl f m)
  | [], _, h => h
  | _ :: t, m, h => foldl_mapInv hf t _ (hf m _ h)

end MapLemmas

/-! ## The collectors preserve the map invariant -/

section CollectorInv

variable {D : Type} {resolve : FwdRec → D}

theorem mergeFwdRegional_ip (resolve : FwdRec → D) (e : PublicIPM D) (r : FwdRec) :
    (mergeFwdRegional resolve e r).ip_address = e.ip_address := by
  simp only [mergeFwdRegional]
  split_ifs <;> rfl

theorem mergeFwdGlobal_ip (resolve : FwdRec → D) (e : PublicIPM D) (r : FwdRec) :
    (mergeFwdGlobal resolve e r).ip_address = e.ip_address := by
  simp only [mergeFwdGlobal]
  split_ifs <;> rfl

theorem mergeVM_ip (e : PublicIPM D) (inst_name zone : String) :
    (mergeVM e inst_name zone).ip_address = e.ip_address := by
  simp only [mergeVM]
  split_ifs <;> rfl

theorem mkRegionalAddrIP_ip (pid region : String) (a : AddrRec) :
    (mkRegionalAddrIP D pid region a).ip_address = a.address := rfl

theorem mkGlobalAddrIP_ip (pid : String) (a : AddrRec) :
    (mkGlobalAddrIP D pid a).ip_address = a.address := rfl

theorem stepRegionalAddr_inv (pid region : String)
    (m : List (String × PublicIPM D)) (a : AddrRec)
    (h : MapInv PublicIPM.ip_address m) :
    MapInv PublicIPM.ip_address (stepRegionalAddr pid region m a) := by
  unfold stepRegionalAddr
  split_ifs
  · exact mapInv_setKey h rfl
  · exact h

theorem stepGlobalAddr_inv (pid : String)
    (m : List (String × PublicIPM D)) (a : AddrRec)
    (h : MapInv PublicIPM.ip_address m) :
    MapInv PublicIPM.ip_address (stepGlobalAddr pid m a) := by
  unfold stepGlobalAddr
  split_ifs
  · exact mapInv_setKey h rfl
  · exact h

theorem stepRegionalFwd_inv (pid region : String)
    (m : List (String × PublicIPM D)) (r : FwdRec)
    (h : MapInv PublicIPM.ip_address m) :
    MapInv PublicIPM.ip_address (stepRegionalFwd resolve pid region m r) := by
  unfold stepRegionalFwd
  split_ifs
  · rcases hg : getKey m r.i_p_address with _ | e
    · exact mapInv_setKey h rfl
    · exact mapInv_setKey h
        ((mergeFwdRegional_ip resolve e r).trans (mapInv_getKey h hg))
  · exact h

theorem stepGlobalFwd_inv (pid : String)
    (m : List (String × PublicIPM D)) (r : FwdRec)
    (h : MapInv PublicIPM.ip_address m) :
    MapInv PublicIPM.ip_address (stepGlobalFwd resolve pid m r) := by
  unfold stepGlobalFwd
  split_ifs
  · rcases hg : getKey m r.i_p_address with _ | e
    · exact mapInv_setKey h rfl
    · exact mapInv_setKey h
        ((mergeFwdGlobal_ip resolve e r).trans (mapInv_getKey h hg))
  · exact h

theorem stepAccessConfig_inv (pid region zone inst_name : String)
    (m : List (String × PublicIPM D)) (ac : AccessConfigRec)
    (h : MapInv PublicIPM.ip_address m) :
    MapInv PublicIPM.ip_address (stepAccessConfig pid region zone inst_name m ac) := by
  unfold stepAccessConfig
  split_ifs
  · rcases hg : getKey m ac.nat_i_p with _ | e
    · exact mapInv_setKey h rfl
    · exact mapInv_setKey h
        ((mergeVM_ip e inst_name zone).trans (mapInv_getKey h hg))
  · exact h

theorem stepInstance_inv (pid region zone : String)
    (m : List (String × PublicIPM D)) (inst : InstRec)
    (h : MapInv PublicIPM.ip_address m) :
    MapInv PublicIPM.ip_address (stepInstance pid region zone m inst) := by
  unfold stepInstance
  exact foldl_mapInv
    (fun m iface hm => foldl_mapInv
      (fun m ac hm2 => stepAccessConfig_inv pid region zone inst.name m ac hm2)
      iface.access_configs m hm)
    inst.network_interfaces m h

theorem collectPublicIpsProj_inv (pid : String) (inp : ProjCollectInput)
    (m : List (String × PublicIPM D)) (h : MapInv PublicIPM.ip_address m) :
    MapInv PublicIPM.ip_address (collectPublicIpsProj resolve m pid inp) := by
  unfold collectPublicIpsProj
  refine foldl_mapInv (fun m sc hm => ?_) _ _
    (foldl_mapInv (fun m r hm => stepGlobalFwd_inv pid m r hm) _ _
      (foldl_mapInv (fun m sc hm => foldl_mapInv
          (fun m r hm2 => stepRegionalFwd_inv pid (extractScopeRegion sc.1) m r hm2)
          _ _ hm) _ _
        (foldl_mapInv (fun m a hm => stepGlobalAddr_inv pid m a hm) _ _
          (foldl_mapInv (fun m sc hm => foldl_mapInv
              (fun m a hm2 => stepRegionalAddr_inv pid (extractScopeRegion sc.1) m a hm2)
              _ _ hm) _ _ h))))
  exact foldl_mapInv
    (fun m inst hm => stepInstance_inv pid (zoneRegion (instZone sc.1)) (instZone sc.1) m inst hm)
    _ _ hm

/-- Every map built by `_collect_public_ips` satisfies the invariant, so
its value list has pairwise-distinct IP literals. -/
theorem collectPublicIps_pairwise (resolve : FwdRec → D)
    (projs : List (ProjectM × ProjCollectInput)) :
    (collectPublicIps resolve projs).Pairwise
      (fun x y => x.ip_address ≠ y.ip_address) := by
  refine mapInv_values_pairwise (foldl_mapInv (fun m pinp hm => ?_) _ _ mapInv_nil)
  dsimp only
  split_ifs
  · exact hm
  · exact collectPublicIpsProj_inv pinp.1.project_id pinp.2 m hm

theorem stepInternalAddr_inv (pid region : String)
    (m : List (String × UsedInternalIPM)) (a : AddrRec)
    (h : MapInv UsedInternalIPM.ip_address m) :
    MapInv UsedInternalIPM.ip_address (stepInternalAddr pid region m a) := by
  unfold stepInternalAddr
  split_ifs
  · exact mapInv_setKey h rfl
  · exact h

theorem stepInternalFwd_inv (pid region : String)
    (m : List (String × UsedInternalIPM)) (r : FwdRec)
    (h : MapInv UsedInternalIPM.ip_address m) :
    MapInv UsedInternalIPM.ip_address (stepInternalFwd pid region m r) := by
  unfold stepInternalFwd
  by_cases h1 : schemeInternal r ∧ truthyS r.i_p_address
  · rw [if_pos h1]
    cases hg : getKey m r.i_p_address with
    | some e => simp only [hg]; exact h
    | none => simp only [hg]; exact mapInv_setKey h rfl
  · rw [if_neg h1]; exact h

theorem stepInternalIface_inv (pid region inst_name : String)
    (m : List (String × UsedInternalIPM)) (iface : IfaceRec)
    (h : MapInv UsedInternalIPM.ip_address m) :
    MapInv UsedInternalIPM.ip_address (stepInternalIface pid region inst_name m iface) := by
  unfold stepInternalIface
  by_cases h1 : truthyS iface.network_i_p = true
  · rw [if_pos h1]
    cases hg : getKey m iface.network_i_p with
    | some e =>
      simp only [hg]
      split_ifs
      · have he : e.ip_address = iface.network_i_p := mapInv_getKey h hg
        exact mapInv_setKey h he
      · exact h
    | none => simp only [hg]; exact mapInv_setKey h rfl
  · rw [if_neg h1]; exact h

theorem collectInternalIpsProj_inv (pid : String) (inp : ProjCollectInput)
    (m : List (String × UsedInternalIPM)) (h : MapInv UsedInternalIPM.ip_address m) :
    MapInv UsedInternalIPM.ip_address (collectInternalIpsProj m pid inp) := by
  unfold collectInternalIpsProj
  refine foldl_mapInv (fun m sc hm => ?_) _ _
    (foldl_mapInv (fun m sc hm => foldl_mapInv
        (fun m r hm2 => stepInternalFwd_inv pid (extractScopeRegion sc.1) m r hm2)
        _ _ hm) _ _
      (foldl_mapInv (fun m sc hm => foldl_mapInv
          (fun m a hm2 => stepInternalAddr_inv pid (extractScopeRegion sc.1) m a hm2)
          _ _ hm) _ _ h))
  exact foldl_mapInv
    (fun m inst hm => foldl_mapInv
      (fun m iface hm2 =>
        stepInternalIface_inv pid (zoneRegion (instZone sc.1)) inst.name m iface hm2)
      _ _ hm)
    _ _ hm

/-- Every map built by `_collect_internal_ips` satisfies the invariant. -/
theorem collectInternalIps_pairwise (projs : List (ProjectM × ProjCollectInput)) :
    (collectInternalIps projs).Pairwise
      (fun x y => x.ip_address ≠ y.ip_address) := by
  refine mapInv_values_pairwise (foldl_mapInv (fun m pinp hm => ?_) _ _ mapInv_nil)
  dsimp only
  split_ifs
  · exact hm
  · exact collectInternalIpsProj_inv pinp.1.project_id pinp.2 m hm

end CollectorInv

/-! ## `pyStrip` is idempotent -/

theorem pyStrip_data (s : String) :
    (pyStrip s).data = List.rdropWhile pyWs (List.dropWhile pyWs s.data) := rfl

theorem pyStrip_idem (s : String) : pyStrip (pyStrip s) = pyStrip s := by
  have hdata : (pyStrip (pyStrip s)).data = (pyStrip s).data := by
    rw [pyStrip_data (pyStrip s), pyStrip_data s]
    have hpre : List.rdropWhile pyWs (List.dropWhile pyWs s.data) <+:
        List.dropWhile pyWs s.data := List.rdropWhile_prefix pyWs _
    have hdrop : List.dropWhile pyWs (List.rdropWhile pyWs (List.dropWhile pyWs s.data)) =
        List.rdropWhile pyWs (List.dropWhile pyWs s.data) := by
      rw [List.dropWhile_eq_self_iff]
      intro hl
      have hlA : 0 < (List.dropWhile pyWs s.data).length :=
        lt_of_lt_of_le hl hpre.length_le
      have hget : (List.rdropWhile pyWs (List.dropWhile pyWs s.data)).get ⟨0, hl⟩ =
          (List.dropWhile pyWs s.data).get ⟨0, hlA⟩ := by
        simp only [List.get_eq_getElem]
        exact hpre.getElem hl
      rw [hget]
      exact List.dropWhile_get_zero_not pyWs s.data hlA
    rw [hdrop]
    exact List.rdropWhile_idempotent pyWs _
  cases hs1 : pyStrip (pyStrip s) with
  | mk d1 =>
    cases hs2 : pyStrip s with
    | mk d2 =>
      rw [hs1, hs2] at hdata
      exact congrArg String.mk (by simpa using hdata)

/-! ## Claim theorems -/

/-- Claim C1, counterexample.  The claim says the merged Address for an IP
literal is classified with the highest-precedence type among the raw
signals' implied types (LoadBalancer > VM > StaticReservation > Unused).
Fixture `cx1Input` carries two signals for `34.1.2.3`: a reserved,
unattached static address (implied type `Unused`) and an external
forwarding rule (implied type `LoadBalancer`).  The collection classifies
the merged Address `"Unused Address"`, not `"LoadBalancer"`: the
forwarding-rule merge only upgrades entries whose current classification is
exactly `"Static Address"`. -/
theorem merge_precedence_counterexample :
    (collectPublicIps (fun _ => ()) [(cx1Proj, cx1Input)]).map
      (fun e => e.resource_type) = ["Unused Address"] ∧
    ("Unused Address" : String) ≠ "LoadBalancer" := by
  constructor
  · decide
  · decide

/-- Claim C1, amended.  The classification upgrade applied while merging
raw public-IP signals for one IP literal is not a precedence maximum: a
forwarding-rule signal upgrades the stored classification to
`"LoadBalancer"` exactly when it is currently `"Static Address"` (global
variant: `"Global Address"` → `"Global LoadBalancer"`), and a VM
network-interface signal rewrites it to `"VM"` exactly when it is
currently `"Static Address"` or `"VM"`; every other stored classification
(`"Unused Address"`, `"CloudNAT"`, `"VM"` for the forwarding-rule case, …)
survives later signals unchanged, regardless of the later signal's implied
type. -/
theorem merge_upgrade_only_from_static_address {D : Type} (resolve : FwdRec → D) :
    (∀ (e : PublicIPM D) (r : FwdRec),
      (mergeFwdRegional resolve e r).resource_type =
        if e.resource_type = "Static Address" then "LoadBalancer"
        else e.resource_type) ∧
    (∀ (e : PublicIPM D) (r : FwdRec),
      (mergeFwdGlobal resolve e r).resource_type =
        if e.resource_type = "Global Address" then "Global LoadBalancer"
        else e.resource_type) ∧
    (∀ (e : PublicIPM D) (inst_name zone : String),
      (mergeVM e inst_name zone).resource_type =
        if e.resource_type = "Static Address" ∨ e.resource_type = "VM" then "VM"
        else e.resource_type) := by
  refine ⟨fun e r => ?_, fun e r => ?_, fun e inst_name zone => ?_⟩
  · simp only [mergeFwdRegional]
    split_ifs <;> rfl
  · simp only [mergeFwdGlobal]
    split_ifs <;> rfl
  · simp only [mergeVM]
    split_ifs <;> rfl

/-- Claim C2.  In every topology returned by `scan_network_topology`, each IP
literal appears at most once per address-kind: the entries of
`public_ips` have pairwise-distinct `ip_address` fields, and likewise the
entries of `used_internal_ips`. -/
theorem ip_lists_unique_per_kind {D : Type} (b : ScanBehavior D)
    (st sid : String) (inc : Bool) (t : TopologyM D)
    (h : scan_network_topology b st sid inc = Except.ok t) :
    t.public_ips.Pairwise (fun x y => x.ip_address ≠ y.ip_address) ∧
    t.used_internal_ips.Pairwise (fun x y => x.ip_address ≠ y.ip_address) := by
  unfold scan_network_topology at h
  split_ifs at h <;>
    cases h <;>
    exact ⟨collectPublicIps_pairwise _ _, collectInternalIps_pairwise _⟩

/-- Claim C2, witness: the two-project scan over `cbTriv` (whose per-project
listings contain overlapping signals for `34.1.2.3`). -/
theorem ip_lists_unique_per_kind_witness :
    t2wit.public_ips.Pairwise (fun x y => x.ip_address ≠ y.ip_address) ∧
    t2wit.used_internal_ips.Pairwise (fun x y => x.ip_address ≠ y.ip_address) :=
  ip_lists_unique_per_kind cbTriv "project" "p1, p2" true t2wit rfl

/-- Claim C5.  `scan_network_topology` fails (the `ValueError` for an
unrecognized `source_type`, re-raised as a `NameError` by the buggy
`except` arm) exactly when `source_type` is none of `folder`,
`organization`, `project`, `all_accessible`; for every recognized source
kind it returns `Except.ok` with a structured topology for **every**
behavior of the underlying API calls, because each callee absorbs its own
failures. -/
theorem scan_topology_raises_iff_unrecognized_source {D : Type}
    (b : ScanBehavior D) (st sid : String) (inc : Bool) :
    isOkE (scan_network_topology b st sid inc) = sourceRecognized st := by
  unfold scan_network_topology sourceRecognized
  split_ifs with h1 h2 h3 h4 <;> simp_all [isOkE]

/-- Claim C6, counterexample.  The claim says a later-arriving forwarding-rule
signal never clobbers an already-set field other than resource-type.  In
`cx6Input` the regional rule `fr-a` creates the entry for `34.9.9.9` with
labels `[("team", "a")]`; the later global rule `fr-b` for the same IP then
**overwrites** the non-empty label map with its own `[("team", "b")]`
(the merge guards `description` and `details` but assigns `labels`
unconditionally whenever the rule has labels). -/
theorem merge_clobbers_labels_counterexample :
    (collectPublicIps (fun _ => ()) [(cx1Proj, cx6Input)]).map
      (fun e => (e.resource_name, e.labels)) = [("fr-a", [("team", "b")])] ∧
    ([("team", "b")] : List (String × String)) ≠ [("team", "a")] := by
  constructor
  · decide
  · decide

/-- Claim C6, amended.  When a forwarding-rule signal merges into an existing
Address for the same IP literal: the identity fields (`ip_address`,
`resource_name`, `project_id`, `region`, `status`, `zone`) never change;
`description` is kept whenever it is set; `details` is kept whenever it is
set; but `labels` is **overwritten** by the rule's labels whenever the rule
has any (and kept only when the rule's label map is empty).  This holds for
the regional and the global merge alike (resource-type upgrades are the
subject of C1). -/
theorem fwd_merge_field_preservation {D : Type} (resolve : FwdRec → D)
    (e : PublicIPM D) (r : FwdRec) :
    ((mergeFwdRegional resolve e r).ip_address = e.ip_address ∧
     (mergeFwdRegional resolve e r).resource_name = e.resource_name ∧
     (mergeFwdRegional resolve e r).project_id = e.project_id ∧
     (mergeFwdRegional resolve e r).region = e.region ∧
     (mergeFwdRegional resolve e r).status = e.status ∧
     (mergeFwdRegional resolve e r).zone = e.zone) ∧
    (truthyS e.description = true →
      (mergeFwdRegional resolve e r).description = e.description) ∧
    (∀ d, e.details = some d → (mergeFwdRegional resolve e r).details = some d) ∧
    (r.labels ≠ [] → (mergeFwdRegional resolve e r).labels = r.labels) ∧
    (r.labels = [] → (mergeFwdRegional resolve e r).labels = e.labels) ∧
    ((mergeFwdGlobal resolve e r).ip_address = e.ip_address ∧
     (mergeFwdGlobal resolve e r).resource_name = e.resource_name ∧
     (mergeFwdGlobal resolve e r).project_id = e.project_id ∧
     (mergeFwdGlobal resolve e r).region = e.region ∧
     (mergeFwdGlobal resolve e r).status = e.status ∧
     (mergeFwdGlobal resolve e r).zone = e.zone) ∧
    (truthyS e.description = true →
      (mergeFwdGlobal resolve e r).description = e.description) ∧
    (∀ d, e.details = some d → (mergeFwdGlobal resolve e r).details = some d) ∧
    (r.labels ≠ [] → (mergeFwdGlobal resolve e r).labels = r.labels) ∧
    (r.labels = [] → (mergeFwdGlobal resolve e r).labels = e.labels) := by
  simp only [mergeFwdRegional, mergeFwdGlobal]
  split_ifs <;> simp_all

/-- Claim C6, witness: the merge of `cx6FwdG` into `cx6Entry` (description,
labels and details all set on the existing entry; the incoming rule carries
labels). -/
theorem fwd_merge_field_preservation_witness :
    (mergeFwdRegional (fun _ => ()) cx6Entry cx6FwdG).description =
      cx6Entry.description ∧
    (mergeFwdRegional (fun _ => ()) cx6Entry cx6FwdG).details = some () ∧
    (mergeFwdRegional (fun _ => ()) cx6Entry cx6FwdG).labels = cx6FwdG.labels ∧
    (mergeFwdRegional (fun _ => ()) cx6Entry cx6FwdG).status = cx6Entry.status :=
  ⟨(fwd_merge_field_preservation (fun _ => ()) cx6Entry cx6FwdG).2.1 (by decide),
   (fwd_merge_field_preservation (fun _ => ()) cx6Entry cx6FwdG).2.2.1 () rfl,
   (fwd_merge_field_preservation (fun _ => ()) cx6Entry cx6FwdG).2.2.2.1 (by decide),
   (fwd_merge_field_preservation (fun _ => ()) cx6Entry cx6FwdG).1.2.2.2.2.1⟩

/-- Claim C7, counterexample.  The claim says account discovery for
`sourceKind = accountList` returns a duplicate-free collection; but the
split of `"a, a"` keeps both copies of `"a"`: the code never
deduplicates. -/
theorem project_list_duplicates_counterexample :
    parseProjectList "a, a" = ["a", "a"] ∧
    ¬ (["a", "a"] : List String).Nodup := by
  constructor
  · decide
  · decide

/-- Claim C7, amended.  For every input string, `accountList` discovery
returns exactly the comma-separated substrings with surrounding whitespace
stripped and empty entries skipped, in order — every returned id is
non-empty and fully trimmed — but duplicates are **not** removed. -/
theorem project_list_trimmed_nonempty :
    (∀ s, parseProjectList s =
      ((pySplit ',' s).map pyStrip).filter (fun x => x ≠ "")) ∧
    (∀ s x, x ∈ parseProjectList s → x ≠ "" ∧ pyStrip x = x) := by
  refine ⟨fun s => rfl, fun s x hx => ?_⟩
  unfold parseProjectList at hx
  rcases List.mem_filter.1 hx with ⟨hmem, hne⟩
  rcases List.mem_map.1 hmem with ⟨y, _, rfl⟩
  exact ⟨by simpa using hne, pyStrip_idem y⟩

/-- Claim C7, witness: the amended statement evaluated at `" a ,b "` and its
first returned id. -/
theorem project_list_trimmed_nonempty_witness :
    ("a" : String) ≠ "" ∧ pyStrip "a" = "a" :=
  project_list_trimmed_nonempty.2 " a ,b " "a" (by decide)

/-! ## C10: malformed CIDRs are silently treated as conflict-free -/

theorem check_overlap_some_parses {a b ot : String}
    (h : check_cidr_overlap a b = some ot) :
    (∃ n1, parse_cidr a = some n1) ∧ ∃ n2, parse_cidr b = some n2 := by
  unfold check_cidr_overlap at h
  rcases hp1 : parse_cidr a with _ | n1 <;> rcases hp2 : parse_cidr b with _ | n2 <;>
    rw [hp1, hp2] at h
  · exact absurd h (by simp)
  · exact absurd h (by simp)
  · exact absurd h (by simp)
  · exact ⟨⟨n1, rfl⟩, ⟨n2, rfl⟩⟩

theorem conflictsForSubnet_of_malformed {input pid vn : String} {sub : SubnetM}
    (h : parse_cidr input = none) :
    conflictsForSubnet input pid vn sub = [] := by
  unfold conflictsForSubnet check_cidr_overlap
  rw [h]
  simp

/-- Claim C10.  When either CIDR string fails to parse, the overlap check
returns `none` (no conflict) instead of raising; consequently a malformed
queried CIDR yields an empty conflict list over any topology, and every
conflict the search does report names a subnet CIDR that parses — subnets
with malformed stored CIDRs are silently skipped. -/
theorem malformed_cidr_silently_no_conflict :
    (∀ s1 s2, parse_cidr s1 = none ∨ parse_cidr s2 = none →
      check_cidr_overlap s1 s2 = none) ∧
    (∀ input projects vf pf, parse_cidr input = none →
      find_all_conflicts input projects vf pf = []) ∧
    (∀ input projects vf pf c, c ∈ find_all_conflicts input projects vf pf →
      ∃ n, parse_cidr c.conflicting_cidr = some n) := by
  refine ⟨fun s1 s2 h => ?_, fun input projects vf pf h => ?_, ?_⟩
  · unfold check_cidr_overlap
    rcases hp1 : parse_cidr s1 with _ | n1 <;> rcases hp2 : parse_cidr s2 with _ | n2 <;>
      simp_all
  · unfold find_all_conflicts
    refine List.flatMap_eq_nil_iff.2 (fun proj _ => ?_)
    split_ifs
    · rfl
    · refine List.flatMap_eq_nil_iff.2 (fun vpc _ => ?_)
      split_ifs
      · rfl
      · exact List.flatMap_eq_nil_iff.2
          (fun sub _ => conflictsForSubnet_of_malformed h)
  · intro input projects vf pf c hc
    unfold find_all_conflicts at hc
    rcases List.mem_flatMap.1 hc with ⟨proj, _, hc⟩
    split_ifs at hc
    · exact absurd hc (by simp)
    · rcases List.mem_flatMap.1 hc with ⟨vpc, _, hc⟩
      split_ifs at hc
      · exact absurd hc (by simp)
      · rcases List.mem_flatMap.1 hc with ⟨sub, _, hc⟩
        unfold conflictsForSubnet at hc
        rcases List.mem_append.1 hc with hc | hc
        · rcases hov : check_cidr_overlap input sub.ip_cidr_range with _ | ot <;>
            rw [hov] at hc
          · exact absurd hc (by simp)
          · rcases List.mem_singleton.1 hc with rfl
            exact (check_overlap_some_parses hov).2
        · rcases List.mem_flatMap.1 hc with ⟨sec, _, hc⟩
          rcases hov : check_cidr_overlap input sec.ip_cidr_range with _ | ot <;>
            rw [hov] at hc
          · exact absurd hc (by simp)
          · rcases List.mem_singleton.1 hc with rfl
            exact (check_overlap_some_parses hov).2

/-- Claim C10, witness: a malformed query reports nothing against `cx10Proj`;
a malformed stored secondary is skipped while the parseable primary is
still reported. -/
theorem malformed_cidr_silently_no_conflict_witness :
    check_cidr_overlap "not-a-cidr" "10.0.1.0/24" = none ∧
    find_all_conflicts "10.0/33" [cx10Proj] none none = [] ∧
    (∃ n, parse_cidr
      (CIDRConflict.conflicting_cidr
        ⟨"10.0.1.0/24", "sub-1", "vpc-1", "p1", "us-east1", "contained_by"⟩) = some n) :=
  ⟨malformed_cidr_silently_no_conflict.1 "not-a-cidr" "10.0.1.0/24" (Or.inl (by decide)),
   malformed_cidr_silently_no_conflict.2.1 "10.0/33" [cx10Proj] none none (by decide),
   malformed_cidr_silently_no_conflict.2.2 "10.0.1.128/25" [cx10Proj] none none
     ⟨"10.0.1.0/24", "sub-1", "vpc-1", "p1", "us-east1", "contained_by"⟩ (by decide)⟩

/-! ## C8: overlap-type semantics of `check_cidr_overlap` -/

theorem parsePrefixLen_le {s : String} {pl : Nat}
    (h : parsePrefixLen s = some pl) : pl ≤ 32 := by
  unfold parsePrefixLen at h
  dsimp only at h
  split_ifs at h with h1 h2 h3
  simp only [Option.some.injEq] at h
  omega

theorem parse_cidr_prefixlen_le {s : String} {n : IPv4Net}
    (h : parse_cidr s = some n) : n.prefixlen ≤ 32 := by
  unfold parse_cidr at h
  rcases hsp : pySplit '/' s with _ | ⟨a, _ | ⟨p, _ | ⟨q, rest⟩⟩⟩ <;>
    simp only [hsp] at h
  · cases h
  · rcases hip : parseIPv4 a with _ | ip <;> simp only [hip] at h
    · cases h
    · cases h
      exact le_refl 32
  · rcases hip : parseIPv4 a with _ | ip <;> simp only [hip] at h
    · cases h
    · rcases hpl : parsePrefixLen p with _ | pl <;> simp only [hpl] at h
      · cases h
      · cases h
        exact parsePrefixLen_le hpl
  · cases h

theorem one_le_blockSize (p : Nat) : 1 ≤ blockSize p :=
  Nat.one_le_two_pow

theorem supernetOf_mutual_eq {n1 n2 : IPv4Net}
    (hp1 : n1.prefixlen ≤ 32) (hp2 : n2.prefixlen ≤ 32)
    (h12 : supernetOf n1 n2 = true) (h21 : supernetOf n2 n1 = true) :
    n1 = n2 := by
  simp only [supernetOf, netStart, netEnd, Bool.and_eq_true, decide_eq_true_eq] at h12 h21
  obtain ⟨ha, hb⟩ := h12
  obtain ⟨hc, hd⟩ := h21
  have hs1 := one_le_blockSize n1.prefixlen
  have hs2 := one_le_blockSize n2.prefixlen
  have haddr : n1.addr = n2.addr := le_antisymm ha hc
  have hsz : blockSize n1.prefixlen = blockSize n2.prefixlen := by omega
  have hpl : n1.prefixlen = n2.prefixlen := by
    have := Nat.pow_right_injective (le_refl 2) hsz
    omega
  cases n1
  cases n2
  simp_all

theorem netStart_le_netEnd (n : IPv4Net) : netStart n ≤ netEnd n := by
  have := one_le_blockSize n.prefixlen
  unfold netStart netEnd
  omega

theorem overlapsNet_self (n : IPv4Net) : overlapsNet n n = true := by
  have := netStart_le_netEnd n
  simp only [overlapsNet, Bool.or_eq_true, Bool.and_eq_true, decide_eq_true_eq]
  omega

theorem supernetOf_overlaps {n1 n2 : IPv4Net} (h : supernetOf n1 n2 = true) :
    overlapsNet n1 n2 = true := by
  have h1 := netStart_le_netEnd n1
  have h2 := netStart_le_netEnd n2
  simp only [supernetOf, Bool.and_eq_true, decide_eq_true_eq] at h
  simp only [overlapsNet, Bool.or_eq_true, Bool.and_eq_true, decide_eq_true_eq]
  omega

theorem supernetOf_overlaps_rev {n1 n2 : IPv4Net} (h : supernetOf n2 n1 = true) :
    overlapsNet n1 n2 = true := by
  have h1 := netStart_le_netEnd n1
  have h2 := netStart_le_netEnd n2
  simp only [supernetOf, Bool.and_eq_true, decide_eq_true_eq] at h
  simp only [overlapsNet, Bool.or_eq_true, Bool.and_eq_true, decide_eq_true_eq]
  omega

theorem supernetOf_self (n : IPv4Net) : supernetOf n n = true := by
  simp [supernetOf]

/-- The five-way case analysis of `checkOverlapNets` for parse-produced
networks. -/
theorem checkOverlapNets_spec (n1 n2 : IPv4Net)
    (hp1 : n1.prefixlen ≤ 32) (hp2 : n2.prefixlen ≤ 32) :
    (checkOverlapNets n1 n2 = some "exact" ↔ n1 = n2) ∧
    (checkOverlapNets n1 n2 = some "contains" ↔
      supernetOf n1 n2 = true ∧ supernetOf n2 n1 = false) ∧
    (checkOverlapNets n1 n2 = some "contained_by" ↔
      supernetOf n2 n1 = true ∧ supernetOf n1 n2 = false) ∧
    (checkOverlapNets n1 n2 = some "partial" ↔
      overlapsNet n1 n2 = true ∧ supernetOf n1 n2 = false ∧
        supernetOf n2 n1 = false) ∧
    (checkOverlapNets n1 n2 = none ↔ overlapsNet n1 n2 = false) := by
  unfold checkOverlapNets
  by_cases heq : n1 = n2
  · subst heq
    rw [if_pos rfl]
    refine ⟨by simp, ?_, ?_, ?_, ?_⟩
    · simp [supernetOf_self n1]
    · simp [supernetOf_self n1]
    · simp [supernetOf_self n1]
    · simp [overlapsNet_self n1]
  · rw [if_neg heq]
    by_cases h12 : supernetOf n1 n2 = true
    · have h21 : supernetOf n2 n1 = false := by
        rcases hb : supernetOf n2 n1 with _ | _
        · rfl
        · exact absurd (supernetOf_mutual_eq hp1 hp2 h12 hb) heq
      rw [if_pos h12]
      refine ⟨by simp [heq], by simp [h12, h21], ?_, ?_, ?_⟩
      · simp [h12]
      · simp [h12]
      · simp [supernetOf_overlaps h12]
    · have h12f : supernetOf n1 n2 = false := by
        rcases hb : supernetOf n1 n2 with _ | _
        · rfl
        · exact absurd hb h12
      rw [if_neg h12]
      by_cases h21 : supernetOf n2 n1 = true
      · rw [if_pos h21]
        refine ⟨by simp [heq], by simp [h12f], by simp [h21, h12f], ?_, ?_⟩
        · simp [h21]
        · simp [supernetOf_overlaps_rev h21]
      · have h21f : supernetOf n2 n1 = false := by
          rcases hb : supernetOf n2 n1 with _ | _
          · rfl
          · exact absurd hb h21
        rw [if_neg h21]
        by_cases hov : overlapsNet n1 n2 = true
        · rw [if_pos hov]
          exact ⟨by simp [heq], by simp [h12f], by simp [h21f],
            by simp [hov, h12f, h21f], by simp [hov]⟩
        · have hovf : overlapsNet n1 n2 = false := by
            rcases hb : overlapsNet n1 n2 with _ | _
            · rfl
            · exact absurd hb hov
          rw [if_neg hov]
          exact ⟨by simp [heq], by simp [hovf, h12f], by simp [hovf, h21f],
            by simp [hovf], by simp [hovf]⟩

/-- Claim C8.  For every pair of well-formed CIDR strings, the overlap check
reports `exact` exactly when the two parsed networks are identical;
`contains` exactly when the queried network's range strictly contains the
existing one's (range inclusion holds one way and not the other);
`contained_by` exactly in the mirrored case; `partial` exactly when the
ranges overlap with containment in neither direction; and no conflict
(`none`) exactly when the ranges are disjoint. -/
theorem check_cidr_overlap_semantics (cidr1 cidr2 : String) (n1 n2 : IPv4Net)
    (h1 : parse_cidr cidr1 = some n1) (h2 : parse_cidr cidr2 = some n2) :
    (check_cidr_overlap cidr1 cidr2 = some "exact" ↔ n1 = n2) ∧
    (check_cidr_overlap cidr1 cidr2 = some "contains" ↔
      supernetOf n1 n2 = true ∧ supernetOf n2 n1 = false) ∧
    (check_cidr_overlap cidr1 cidr2 = some "contained_by" ↔
      supernetOf n2 n1 = true ∧ supernetOf n1 n2 = false) ∧
    (check_cidr_overlap cidr1 cidr2 = some "partial" ↔
      overlapsNet n1 n2 = true ∧ supernetOf n1 n2 = false ∧
        supernetOf n2 n1 = false) ∧
    (check_cidr_overlap cidr1 cidr2 = none ↔ overlapsNet n1 n2 = false) := by
  unfold check_cidr_overlap
  rw [h1, h2]
  exact checkOverlapNets_spec n1 n2 (parse_cidr_prefixlen_le h1)
    (parse_cidr_prefixlen_le h2)

/-- Claim C8, witness: `10.0.1.128/25` against `10.0.1.0/24` is strictly
contained, and the check reports `contained_by`. -/
theorem check_cidr_overlap_semantics_witness :
    check_cidr_overlap "10.0.1.128/25" "10.0.1.0/24" = some "contained_by" :=
  ((check_cidr_overlap_semantics "10.0.1.128/25" "10.0.1.0/24"
      ⟨167772544, 25⟩ ⟨167772416, 24⟩ rfl rfl).2.2.1).2 ⟨by decide, by decide⟩

/-! ## C9: properties of the CIDR suggestions -/

/-- Claim C3, counterexample.  The claim says a failed account-metadata fetch
makes `scanAccount` return an error-status result without scanning any
resources.  In `cx3Api` the metadata call raises, yet
`_scan_single_project` continues — the network listing still runs and
returns the network — and the result's status is `"success"`:
`_get_project_info` swallows every exception and returns `None`, which the
caller treats as "no display name available". -/
theorem metadata_failure_counterexample :
    cx3Api.getProject = Except.error () ∧
    (scan_single_project cx3Api "p1" true).scan_status = "success" ∧
    ("success" : String) ≠ "error" ∧
    (scan_single_project cx3Api "p1" true).vpc_networks ≠ [] := by
  refine ⟨rfl, rfl, by decide, by decide⟩

/-- Claim C3, amended.  If the account-metadata fetch fails, the failure is
absorbed: the scan still proceeds to the resource listings (the result's
network list is exactly what `_list_vpc_networks` returns), the display
name falls back to the account id, the numeric id stays empty, and — since
every resource-listing helper also absorbs its own failures — the account
result carries status `"success"`, not `"error"`. -/
theorem metadata_failure_scan_proceeds (b : ProjApiBehavior) (pid : String)
    (inc : Bool) (h : b.getProject = Except.error ()) :
    (scan_single_project b pid inc).scan_status = "success" ∧
    (scan_single_project b pid inc).project_name = pid ∧
    (scan_single_project b pid inc).project_number = "" ∧
    (scan_single_project b pid inc).vpc_networks = list_vpc_networks b pid inc := by
  unfold scan_single_project get_project_info
  rw [h]
  exact ⟨rfl, rfl, rfl, rfl⟩

/-- Claim C3, witness: the amended statement at `cx3Api`. -/
theorem metadata_failure_scan_proceeds_witness :
    (scan_single_project cx3Api "p1" true).scan_status = "success" ∧
    (scan_single_project cx3Api "p1" true).project_name = "p1" ∧
    (scan_single_project cx3Api "p1" true).project_number = "" ∧
    (scan_single_project cx3Api "p1" true).vpc_networks =
      list_vpc_networks cx3Api "p1" true :=
  metadata_failure_scan_proceeds cx3Api "p1" true rfl

/-! ## C4: scanner failure handling -/

/-- Claim C4, counterexample.  The claim says every resource-kind scanner
turns any internal failure into the **empty** list.  In `cx4B` the address
listings succeed, the first address is emitted, and then classifying the
second address raises the `IndexError` of `"badlink".split("/")[-2]`
(address_scanner.py line 107 — the one in-loop raise the source allows,
since the listing calls absorb their own failures and the `LBScanner`
helpers always return): the `except` arm of
`AddressScanner.scan_addresses` falls through to `return results`, so the
caller receives the one-element partial list, not `[]`. -/
theorem address_scanner_partial_counterexample :
    addrScanResourceType false cx4Addr2 = none ∧
    scan_addresses cx4B "p1" "EXTERNAL" [] =
      [{ kind := "public", ip_address := "1.1.1.1",
         resource_type := "In Use (Unknown)", resource_name := "a-1",
         project_id := "p1", region := "global", status := "IN_USE",
         vpc := "", subnet := "", description := "", details := none }] ∧
    scan_addresses cx4B "p1" "EXTERNAL" [] ≠ [] := by
  refine ⟨by decide, by decide, by decide⟩

/-- Claim C4, amended.  Each scanner's scan operation is total over every
provider behavior (exceptions never escape its own `try`/`except`), and on
an internal failure the instance and storage scanners return the empty
list, while the address scanner returns the records accumulated before the
failure point — possibly non-empty.  Its only in-loop fault in the source
is the `IndexError` from classifying a `users` link with fewer than two
`/`-components, so when every listed address classifies, the body
completes normally and the full list is returned. -/
theorem scanners_never_raise_and_degrade :
    (∀ (b : InstScanBehavior) (pid : String),
      b.aggregated = Except.error () → scan_instances b pid = []) ∧
    (∀ (b : StorageScanBehavior) (pid : String),
      b.listBuckets = Except.error () → scan_buckets b pid = []) ∧
    (∀ (D : Type) (b : AddrScanBehavior D) (pid ty : String)
        (sm : List (String × String)) (pl : List (ScanAddrOut D)),
      scan_addresses_body b pid ty sm = Except.error pl →
        scan_addresses b pid ty sm = pl) ∧
    (∀ (D : Type) (b : AddrScanBehavior D) (pid ty : String)
        (sm : List (String × String)),
      (∀ a ∈ addrListingsOf b, ∀ m : Bool, addrScanResourceType m a ≠ none) →
        ∃ l, scan_addresses_body b pid ty sm = Except.ok l ∧
          scan_addresses b pid ty sm = l) := by
  refine ⟨fun b pid h => ?_, fun b pid h => ?_,
    fun D b pid ty sm pl h => ?_, fun D b pid ty sm h => ?_⟩
  · unfold scan_instances scan_instances_body
    rw [h]
    rfl
  · unfold scan_buckets scan_buckets_body
    rw [h]
    rfl
  · unfold scan_addresses
    rw [h]
  · have hloop : ∀ (target : List AddrRec) (acc : List (ScanAddrOut D)),
        (∀ a ∈ target, ∀ m : Bool, addrScanResourceType m a ≠ none) →
        ∃ l, addrLoop b pid ty sm (fwdRulesOf b) target acc = Except.ok l := by
      intro target
      induction target with
      | nil => exact fun acc _ => ⟨acc, rfl⟩
      | cons a rest ih =>
        intro acc ha
        rw [addrLoop]
        cases hrt : addrScanResourceType
            (ipToFwdLookup (fwdRulesOf b) a.address).isSome a with
        | none => exact absurd hrt (ha a (List.mem_cons_self _ _) _)
        | some rt =>
          exact ih _ (fun a2 h2 m => ha a2 (List.mem_cons_of_mem _ h2) m)
    obtain ⟨l1, hl1⟩ := hloop (targetAddrsOf b ty) []
      (fun a ha m => h a (List.mem_of_mem_filter ha) m)
    have hbody : scan_addresses_body b pid ty sm =
        Except.ok (fwdLoop b pid ty
          ((targetAddrsOf b ty).map (fun a => a.address)) (fwdRulesOf b) l1) := by
      unfold scan_addresses_body
      rw [hl1]
    refine ⟨_, hbody, ?_⟩
    unfold scan_addresses
    rw [hbody]

/-- Claim C4, witness: the amended statement at the failing fixtures
(`cx4InstB`, `cx4StoreB`, the partial-list behavior `cx4B`) and at the
well-formed behavior `cx4Good`. -/
theorem scanners_never_raise_and_degrade_witness :
    scan_instances cx4InstB "p1" = [] ∧
    scan_buckets cx4StoreB "p1" = [] ∧
    scan_addresses cx4B "p1" "EXTERNAL" [] =
      [{ kind := "public", ip_address := "1.1.1.1",
         resource_type := "In Use (Unknown)", resource_name := "a-1",
         project_id := "p1", region := "global", status := "IN_USE",
         vpc := "", subnet := "", description := "", details := none }] ∧
    (∃ l, scan_addresses_body cx4Good "p1" "EXTERNAL" [] = Except.ok l ∧
      scan_addresses cx4Good "p1" "EXTERNAL" [] = l) :=
  ⟨scanners_never_raise_and_degrade.1 cx4InstB "p1" rfl,
   scanners_never_raise_and_degrade.2.1 cx4StoreB "p1" rfl,
   scanners_never_raise_and_degrade.2.2.1 Unit cx4B "p1" "EXTERNAL" [] _ rfl,
   scanners_never_raise_and_degrade.2.2.2 Unit cx4Good "p1" "EXTERNAL" []
     (by decide)⟩

end GcpNet
